import Mathlib

/-!
# OpENer QoS object and NV-data glue: a shallow embedding

Embeds `src/cip/cipqos.c` (the QoS object, its Set-Attribute-Single service,
the configured/active DSCP generations) and `src/ports/nvdata/nvdata.c`
(boot-time load-or-store and the post-set store callback).

Conventions of the embedding:
* C globals (`g_qos`, `s_active_dscp`) are fields of an explicit state record;
* the `void *data` of an attribute descriptor is a symbolic location `Loc`
  (or `none` for `NULL`), and a store through it is `writeUsint`;
* machine integers are `Nat` with an explicit `% 2 ^ w` at every narrowing
  conversion, `int`/`EipStatus` values are `Int`;
* the external routines `NvQosLoad`/`NvQosStore` are fields of a port record
  over an arbitrary medium state, and every call to them is logged.
-/

namespace OpENer

/-! ## Data model -/

/-- The seven DSCP values of the QoS object (`CipQosDscpValues`), each a `CipUsint`. -/
structure CipQosDscpValues where
  event : Nat
  general : Nat
  urgent : Nat
  scheduled : Nat
  high : Nat
  low : Nat
  explicit : Nat
  deriving DecidableEq

/-- The QoS object (`CipQosObject`): the 802.1Q enable flag and the DSCP values. -/
structure CipQosObject where
  q_frames_enable : Bool
  dscp : CipQosDscpValues
  deriving DecidableEq

def DEFAULT_DSCP_EVENT : Nat := 59
def DEFAULT_DSCP_GENERAL : Nat := 47
def DEFAULT_DSCP_URGENT : Nat := 55
def DEFAULT_DSCP_SCHEDULED : Nat := 47
def DEFAULT_DSCP_HIGH : Nat := 43
def DEFAULT_DSCP_LOW : Nat := 31
def DEFAULT_DSCP_EXPLICIT : Nat := 27

/-- Initializer of the global `g_qos` (cipqos.c lines 30-39). -/
def g_qos_init : CipQosObject :=
  { q_frames_enable := false
    dscp :=
      { event := DEFAULT_DSCP_EVENT
        general := DEFAULT_DSCP_GENERAL
        urgent := DEFAULT_DSCP_URGENT
        scheduled := DEFAULT_DSCP_SCHEDULED
        high := DEFAULT_DSCP_HIGH
        low := DEFAULT_DSCP_LOW
        explicit := DEFAULT_DSCP_EXPLICIT } }

/-- Initializer of the static `s_active_dscp` (cipqos.c lines 47-55). -/
def s_active_dscp_init : CipQosDscpValues :=
  { event := DEFAULT_DSCP_EVENT
    general := DEFAULT_DSCP_GENERAL
    urgent := DEFAULT_DSCP_URGENT
    scheduled := DEFAULT_DSCP_SCHEDULED
    high := DEFAULT_DSCP_HIGH
    low := DEFAULT_DSCP_LOW
    explicit := DEFAULT_DSCP_EXPLICIT }

/-- Names of the seven members of a `CipQosDscpValues`. -/
inductive DscpField where
  | event | general | urgent | scheduled | high | low | explicit
  deriving DecidableEq

/-- Symbolic addresses of the byte-sized objects of cipqos.c that a
descriptor's `data` pointer can designate. -/
inductive Loc where
  | g_qos_q_frames_enable
  | g_qos_dscp (f : DscpField)
  | s_active_dscp (f : DscpField)
  deriving DecidableEq

/-- Call log entry for the external NV routines. -/
inductive NvEvent where
  | load (arg : CipQosObject)
  | store (arg : CipQosObject)
  deriving DecidableEq

/-- The mutable globals of cipqos.c together with the log of calls made to the
external NV routines. -/
structure QosState where
  g_qos : CipQosObject
  s_active_dscp : CipQosDscpValues
  nv_log : List NvEvent
  deriving DecidableEq

/-- State at program start: both globals hold their initializers. -/
def initialState : QosState :=
  { g_qos := g_qos_init, s_active_dscp := s_active_dscp_init, nv_log := [] }

def CipQosDscpValues.get (d : CipQosDscpValues) : DscpField → Nat
  | .event => d.event
  | .general => d.general
  | .urgent => d.urgent
  | .scheduled => d.scheduled
  | .high => d.high
  | .low => d.low
  | .explicit => d.explicit

def CipQosDscpValues.set (d : CipQosDscpValues) (f : DscpField) (v : Nat) : CipQosDscpValues :=
  match f with
  | .event => { d with event := v }
  | .general => { d with general := v }
  | .urgent => { d with urgent := v }
  | .scheduled => { d with scheduled := v }
  | .high => { d with high := v }
  | .low => { d with low := v }
  | .explicit => { d with explicit := v }

/-- Byte read through a `CipUsint *` at a location. -/
def readUsint (s : QosState) : Loc → Nat
  | .g_qos_q_frames_enable => if s.g_qos.q_frames_enable then 1 else 0
  | .g_qos_dscp f => s.g_qos.dscp.get f
  | .s_active_dscp f => s.s_active_dscp.get f

/-- The assignment `*(data) = value` through a `CipUsint *` (cipqos.c line 97):
the value is converted to the 8-bit `CipUsint` and stored at the location. -/
def writeUsint (s : QosState) (l : Loc) (value : Nat) : QosState :=
  match l with
  | .g_qos_q_frames_enable =>
      { s with g_qos := { s.g_qos with q_frames_enable := decide (value % 2 ^ 8 ≠ 0) } }
  | .g_qos_dscp f =>
      { s with g_qos := { s.g_qos with dscp := s.g_qos.dscp.set f (value % 2 ^ 8) } }
  | .s_active_dscp f =>
      { s with s_active_dscp := s.s_active_dscp.set f (value % 2 ^ 8) }

/-! ## Constants and types of headers outside the translated sources -/

/-- General status codes written into a response (`CipError`, ciperror.h); only
the four codes used by cipqos.c are listed. -/
inductive CipError where
  | kCipErrorSuccess
  | kCipErrorNotEnoughData
  | kCipErrorInvalidAttributeValue
  | kCipErrorAttributeNotSupported
  deriving DecidableEq

/-- The `EipStatus` values used by the two files (typedefs.h). -/
def kEipStatusOk : Int := 0
def kEipStatusOkSend : Int := 1
def kEipStatusError : Int := -1

/-- Attribute flag bits (`CIPAttributeFlag`, ciptypes.h). -/
def kNotSetOrGetable : Nat := 0x00
def kGetableAll : Nat := 0x01
def kGetableSingle : Nat := 0x02
def kSetable : Nat := 0x04
def kNvDataFunc : Nat := 0x80

/-- CIP data type code of USINT (`kCipUsint`, ciptypes.h). -/
def kCipUsint : Nat := 0xC6

/-- Bit width of `CipUint`, the CIP elementary type UINT (typedefs.h:
`uint16_t`). The local `attribute_value_recieved` has this type. -/
def CipUintBits : Nat := 16

/-- Connection priorities (`ConnectionObjectPriority`); `unrecognized raw`
stands for any other value of the underlying integer. -/
inductive ConnectionObjectPriority where
  | kConnectionObjectPriorityLow
  | kConnectionObjectPriorityHigh
  | kConnectionObjectPriorityScheduled
  | kConnectionObjectPriorityUrgent
  | kConnectionObjectPriorityExplicit
  | unrecognized (raw : Nat)
  deriving DecidableEq

/-- Attribute descriptor (`CipAttributeStruct`); `data = none` is `NULL`. -/
structure CipAttributeStruct where
  attribute_number : Nat
  type : Nat
  attribute_flags : Nat
  data : Option Loc
  deriving DecidableEq

/-- The parts of `CipClass` used here: the packed permission byte arrays. -/
structure CipClass where
  number_of_attributes : Nat
  highest_attribute_number : Nat
  get_single_bit_mask : List Nat
  get_all_bit_mask : List Nat
  set_bit_mask : List Nat
  deriving DecidableEq

/-- An object instance (`CipInstance`) with its descriptor table and class. -/
structure CipInstance where
  instance_number : Nat
  attributes : List CipAttributeStruct
  cip_class : CipClass
  deriving DecidableEq

/-- The fields of `CipMessageRouterRequest` read by the set service; `data` is
the not yet consumed rest of the message, one list element per byte. -/
structure CipMessageRouterRequest where
  service : Nat
  request_path_attribute_number : Nat
  data : List Nat
  deriving DecidableEq

/-- The fields of `CipMessageRouterResponse` written by the set service. -/
structure CipMessageRouterResponse where
  reply_service : Nat
  general_status : CipError
  size_of_additional_status : Nat
  data_length : Nat
  deriving DecidableEq

/-- Modelled from the spec: `GetCipAttribute` (cipcommon.c) is the registry's
`resolve(class, attribute_number) -> AttributeDescriptor | NotFound`: the
descriptor of the instance carrying that number, `none` (`NULL`) if absent. -/
def GetCipAttribute (inst : CipInstance) (attribute_number : Nat) :
    Option CipAttributeStruct :=
  inst.attributes.find? (fun a => a.attribute_number == attribute_number)

/-- Modelled from the spec: `CalculateIndex` (cipcommon.c) selects the byte of
a packed permission array for an attribute number; the bit inside that byte is
`attribute_number % 8` (cipqos.c line 87), so the byte is `attribute_number / 8`. -/
def CalculateIndex (attribute_number : Nat) : Nat :=
  attribute_number / 8

/-- Modelled from the spec: `GetDintFromMessage` (endianconv.c) decodes a 4-byte
little-endian field from the front of the message and advances the message
pointer past it. A byte missing from the list reads as 0. -/
def GetDintFromMessage (buffer : List Nat) : Nat × List Nat :=
  (buffer.getD 0 0 % 2 ^ 8
    + (buffer.getD 1 0 % 2 ^ 8) * 2 ^ 8
    + (buffer.getD 2 0 % 2 ^ 8) * 2 ^ 16
    + (buffer.getD 3 0 % 2 ^ 8) * 2 ^ 24,
   buffer.drop 4)

/-- Wire image of a 32-bit value: four bytes, least significant first. -/
def encodeDint (v : Nat) : List Nat :=
  [v % 2 ^ 8, v / 2 ^ 8 % 2 ^ 8, v / 2 ^ 16 % 2 ^ 8, v / 2 ^ 24 % 2 ^ 8]

/-- Modelled from the spec: the packed permission byte array of a class
(cipcommon.c) holds one bit per attribute number, bit `attribute_number % 8` of
byte `CalculateIndex attribute_number`; registering an attribute ORs its
permission into that bit. -/
def setMaskBit (mask : List Nat) (attribute_number : Nat) (flag : Bool) : List Nat :=
  mask.modify
    (fun b => b ||| ((if flag then 1 else 0) <<< (attribute_number % 8)))
    (CalculateIndex attribute_number)

/-- Modelled from the spec: `InsertAttribute` (cipcommon.c) registers one
descriptor {number, type, storage, permissions} in the instance's table and
records its get/set permissions in the class's packed permission arrays. -/
def InsertAttribute (inst : CipInstance) (attribute_number type : Nat)
    (data : Option Loc) (cip_flags : Nat) : CipInstance :=
  { inst with
    attributes := inst.attributes ++
      [{ attribute_number := attribute_number, type := type,
         attribute_flags := cip_flags, data := data }]
    cip_class :=
      { inst.cip_class with
        get_single_bit_mask :=
          setMaskBit inst.cip_class.get_single_bit_mask attribute_number
            (decide (cip_flags &&& kGetableSingle ≠ 0))
        get_all_bit_mask :=
          setMaskBit inst.cip_class.get_all_bit_mask attribute_number
            (decide (cip_flags &&& kGetableAll ≠ 0))
        set_bit_mask :=
          setMaskBit inst.cip_class.set_bit_mask attribute_number
            (decide (cip_flags &&& kSetable ≠ 0)) } }

/-- Modelled from the spec: `CreateCipClass` followed by `GetCipInstance(_, 1)`
(cipcommon.c) yields instance 1 of a class with an empty descriptor table and
all-zero permission arrays covering attribute numbers up to the highest one. -/
def createInstance (number_of_attributes highest_attribute_number : Nat) : CipInstance :=
  { instance_number := 1
    attributes := []
    cip_class :=
      { number_of_attributes := number_of_attributes
        highest_attribute_number := highest_attribute_number
        get_single_bit_mask := List.replicate (CalculateIndex highest_attribute_number + 1) 0
        get_all_bit_mask := List.replicate (CalculateIndex highest_attribute_number + 1) 0
        set_bit_mask := List.replicate (CalculateIndex highest_attribute_number + 1) 0 } }

/-! ## cipqos.c -/

/-- Result of one run of the set service: the returned `EipStatus`, the request
after the payload was consumed, the response, and the globals. -/
structure SetResult where
  status : Int
  request : CipMessageRouterRequest
  response : CipMessageRouterResponse
  state : QosState
  deriving DecidableEq

/-- Lines 77-110 of `SetAttributeSingleQoS`: general status, globals and rest
of the message after the permission, range and storage checks. -/
def setAttributeBody (inst : CipInstance) (req : CipMessageRouterRequest) (s : QosState) :
    CipError × QosState × List Nat :=
  let found := GetCipAttribute inst req.request_path_attribute_number
  let attribute_number := req.request_path_attribute_number
  let set_bit_mask := inst.cip_class.set_bit_mask.getD (CalculateIndex attribute_number) 0
  match found with
  | some attr =>
    if set_bit_mask &&& (1 <<< (attribute_number % 8)) ≠ 0 then
      let msg := GetDintFromMessage req.data
      let attribute_value_recieved := msg.1 % 2 ^ CipUintBits
      if ¬ (attribute_value_recieved ≤ 0 ∨ attribute_value_recieved ≥ 63) then
        match attr.data with
        | some data =>
          (CipError.kCipErrorSuccess, writeUsint s data attribute_value_recieved, msg.2)
        | none => (CipError.kCipErrorNotEnoughData, s, msg.2)
      else (CipError.kCipErrorInvalidAttributeValue, s, msg.2)
    else (CipError.kCipErrorAttributeNotSupported, s, req.data)
  | none => (CipError.kCipErrorAttributeNotSupported, s, req.data)

/-- `SetAttributeSingleQoS` (cipqos.c lines 70-118). -/
def SetAttributeSingleQoS (inst : CipInstance) (req : CipMessageRouterRequest)
    (s : QosState) : SetResult :=
  let r := setAttributeBody inst req s
  { status := kEipStatusOkSend
    request := { req with data := r.2.2 }
    response :=
      { general_status := r.1
        size_of_additional_status := 0
        data_length := 0
        reply_service := (0x80 ||| req.service) % 2 ^ 8 }
    state := r.2.1 }

/-- `CipQosGetDscpPriority` (cipqos.c lines 120-142), reading `s_active_dscp`. -/
def CipQosGetDscpPriority (s : QosState) (priority : ConnectionObjectPriority) : Nat :=
  match priority with
  | .kConnectionObjectPriorityLow => s.s_active_dscp.low
  | .kConnectionObjectPriorityHigh => s.s_active_dscp.high
  | .kConnectionObjectPriorityScheduled => s.s_active_dscp.scheduled
  | .kConnectionObjectPriorityUrgent => s.s_active_dscp.urgent
  | .kConnectionObjectPriorityExplicit => s.s_active_dscp.explicit
  | .unrecognized _ => s.s_active_dscp.explicit

/-- The eight `InsertAttribute` calls of `CipQoSInit` (cipqos.c lines 151-208)
on instance 1 of the freshly created class. -/
def CipQoSInit : CipInstance :=
  let i0 := createInstance 8 8
  let i1 := InsertAttribute i0 1 kCipUsint (some Loc.g_qos_q_frames_enable) kNotSetOrGetable
  let i2 := InsertAttribute i1 2 kCipUsint (some (Loc.g_qos_dscp .event)) kNotSetOrGetable
  let i3 := InsertAttribute i2 3 kCipUsint (some (Loc.g_qos_dscp .general)) kNotSetOrGetable
  let i4 := InsertAttribute i3 4 kCipUsint (some (Loc.g_qos_dscp .urgent))
    (kGetableSingle ||| kSetable)
  let i5 := InsertAttribute i4 5 kCipUsint (some (Loc.g_qos_dscp .scheduled))
    (kGetableSingle ||| kSetable)
  let i6 := InsertAttribute i5 6 kCipUsint (some (Loc.g_qos_dscp .high))
    (kGetableSingle ||| kSetable)
  let i7 := InsertAttribute i6 7 kCipUsint (some (Loc.g_qos_dscp .low))
    (kGetableSingle ||| kSetable)
  InsertAttribute i7 8 kCipUsint (some (Loc.g_qos_dscp .explicit))
    (kGetableSingle ||| kSetable)

/-- `CipQosUpdateUsedSetQosValues` (cipqos.c lines 218-220). -/
def CipQosUpdateUsedSetQosValues (s : QosState) : QosState :=
  { s with s_active_dscp := s.g_qos.dscp }

/-- `CipQosResetAttributesToDefaultValues` (cipqos.c lines 222-234). -/
def CipQosResetAttributesToDefaultValues (s : QosState) : QosState :=
  let kDefaultValues : CipQosDscpValues :=
    { event := DEFAULT_DSCP_EVENT
      general := DEFAULT_DSCP_GENERAL
      urgent := DEFAULT_DSCP_URGENT
      scheduled := DEFAULT_DSCP_SCHEDULED
      high := DEFAULT_DSCP_HIGH
      low := DEFAULT_DSCP_LOW
      explicit := DEFAULT_DSCP_EXPLICIT }
  { s with g_qos := { q_frames_enable := false, dscp := kDefaultValues } }

/-! ## nvdata.c -/

/-- The external NV routines of nvqos.c, `NvQosLoad(&g_qos)` and
`NvQosStore(&g_qos)`, over an arbitrary state `σ` of the storage medium. Both
return an `int` (0 on success); the load may rewrite the object it is given. -/
structure NvPort (σ : Type) where
  NvQosLoad : σ → CipQosObject → Int × CipQosObject × σ
  NvQosStore : σ → CipQosObject → Int × σ

/-- Result of an nvdata.c function: returned `EipStatus`, globals, medium. -/
structure NvResult (σ : Type) where
  status : Int
  state : QosState
  medium : σ

/-- The call `rc = NvQosLoad(&g_qos)`: runs the port's load on the current
object, installs what it left in `g_qos` and logs the call. -/
def callNvQosLoad {σ : Type} (port : NvPort σ) (s : QosState) (m : σ) : NvResult σ :=
  let r := port.NvQosLoad m s.g_qos
  { status := r.1
    state := { s with g_qos := r.2.1, nv_log := s.nv_log ++ [NvEvent.load s.g_qos] }
    medium := r.2.2 }

/-- The call `rc = NvQosStore(&g_qos)`: runs the port's store on the current
object and logs the call. -/
def callNvQosStore {σ : Type} (port : NvPort σ) (s : QosState) (m : σ) : NvResult σ :=
  let r := port.NvQosStore m s.g_qos
  { status := r.1
    state := { s with nv_log := s.nv_log ++ [NvEvent.store s.g_qos] }
    medium := r.2 }

/-- `NvdataLoad` (nvdata.c lines 35-48). -/
def NvdataLoad {σ : Type} (port : NvPort σ) (s : QosState) (m : σ) : NvResult σ :=
  let status := kEipStatusOk
  let l := callNvQosLoad port s m
  let rc := l.status
  let status := Int.lor status rc
  if 0 ≠ rc then
    let st := callNvQosStore port l.state l.medium
    let rc := st.status
    let status := Int.lor status rc
    { status := status, state := st.state, medium := st.medium }
  else
    { status := status, state := l.state, medium := l.medium }

/-- `NvQosSetCallback` (nvdata.c lines 63-80). -/
def NvQosSetCallback {σ : Type} (port : NvPort σ) (_inst : CipInstance)
    (attr : CipAttributeStruct) (_service : Nat) (s : QosState) (m : σ) : NvResult σ :=
  let status := kEipStatusOk
  if 0 ≠ (kNvDataFunc &&& attr.attribute_flags) then
    callNvQosStore port s m
  else
    { status := status, state := s, medium := m }

/-- Number of `NvQosStore` calls recorded in a log. -/
def storeCalls (log : List NvEvent) : Nat :=
  log.countP (fun e => match e with | .store _ => true | .load _ => false)

/-- A sample medium for concrete runs: the medium holds at most one saved image
of the object. Loading fails with -1 on an empty medium and leaves the object
as it is; storing always succeeds. -/
def imagePort : NvPort (Option CipQosObject) where
  NvQosLoad := fun m obj =>
    match m with
    | some img => (0, img, m)
    | none => (-1, obj, m)
  NvQosStore := fun _ obj => (0, some obj)

/-- A sample medium whose routines report the fixed codes `lrc` and `src`
and change nothing. -/
def fixedPort (lrc src : Int) : NvPort Unit where
  NvQosLoad := fun m obj => (lrc, obj, m)
  NvQosStore := fun m _ => (src, m)

/-- The test of line 87 on an instance: the attribute number's bit in the
class's packed set-permission array. -/
def settableBit (inst : CipInstance) (attribute_number : Nat) : Nat :=
  inst.cip_class.set_bit_mask.getD (CalculateIndex attribute_number) 0
    &&& (1 <<< (attribute_number % 8))

/-- Attribute numbers 4..8 and the member of `g_qos.dscp` each is bound to. -/
def boundField : Nat → Option DscpField
  | 4 => some .urgent
  | 5 => some .scheduled
  | 6 => some .high
  | 7 => some .low
  | 8 => some .explicit
  | _ => none

/-- The attribute number's bit in the class's packed get-single permission
array, read the way line 87 reads the set-permission array. -/
def gettableBit (inst : CipInstance) (attribute_number : Nat) : Nat :=
  inst.cip_class.get_single_bit_mask.getD (CalculateIndex attribute_number) 0
    &&& (1 <<< (attribute_number % 8))

/-- An instance with a single attribute, number 4, registered gettable and
settable but with a `NULL` data pointer. -/
def unboundInstance : CipInstance :=
  InsertAttribute (createInstance 1 4) 4 kCipUsint none (kGetableSingle ||| kSetable)

/-- The value the range test of lines 91-92 is applied to: the local
`attribute_value_recieved` after `GetDintFromMessage` was assigned to it. -/
def receivedValue (req : CipMessageRouterRequest) : Nat :=
  (GetDintFromMessage req.data).1 % 2 ^ CipUintBits

/-- The operations on the QoS globals: a set request on the registered
instance, the activation, and the reset to defaults. -/
inductive QosOp where
  | set (req : CipMessageRouterRequest)
  | update
  | reset
  deriving DecidableEq

/-- Effect of one operation on the globals. -/
def applyOp (s : QosState) : QosOp → QosState
  | .set req => (SetAttributeSingleQoS CipQoSInit req s).state
  | .update => CipQosUpdateUsedSetQosValues s
  | .reset => CipQosResetAttributesToDefaultValues s

/-- Effect of a finite sequence of operations, first element first. -/
def runOps (ops : List QosOp) (s : QosState) : QosState :=
  ops.foldl applyOp s

/-- All seven members of a DSCP record lie in 1..62. -/
def dscpInRange (d : CipQosDscpValues) : Prop :=
  ∀ f : DscpField, 1 ≤ d.get f ∧ d.get f ≤ 62

/-! ## Facts about the registered QoS instance -/

theorem CipQoSInit_attributes :
    CipQoSInit.attributes =
      [ { attribute_number := 1, type := 0xC6, attribute_flags := 0,
          data := some Loc.g_qos_q_frames_enable },
        { attribute_number := 2, type := 0xC6, attribute_flags := 0,
          data := some (Loc.g_qos_dscp .event) },
        { attribute_number := 3, type := 0xC6, attribute_flags := 0,
          data := some (Loc.g_qos_dscp .general) },
        { attribute_number := 4, type := 0xC6, attribute_flags := 6,
          data := some (Loc.g_qos_dscp .urgent) },
        { attribute_number := 5, type := 0xC6, attribute_flags := 6,
          data := some (Loc.g_qos_dscp .scheduled) },
        { attribute_number := 6, type := 0xC6, attribute_flags := 6,
          data := some (Loc.g_qos_dscp .high) },
        { attribute_number := 7, type := 0xC6, attribute_flags := 6,
          data := some (Loc.g_qos_dscp .low) },
        { attribute_number := 8, type := 0xC6, attribute_flags := 6,
          data := some (Loc.g_qos_dscp .explicit) } ] := by
  rfl

theorem CipQoSInit_set_bit_mask : CipQoSInit.cip_class.set_bit_mask = [0xF0, 0x01] := by
  rfl

theorem getCipAttribute_unregistered (n : Nat) (h : ¬ (1 ≤ n ∧ n ≤ 8)) :
    GetCipAttribute CipQoSInit n = none := by
  unfold GetCipAttribute
  rw [CipQoSInit_attributes, List.find?_eq_none]
  intro x hx
  simp only [List.mem_cons, List.mem_singleton, List.not_mem_nil, or_false] at hx
  rcases hx with rfl | rfl | rfl | rfl | rfl | rfl | rfl | rfl <;> simp <;> omega

theorem getCipAttribute_settable (n : Nat) (h4 : 4 ≤ n) (h8 : n ≤ 8) :
    ∃ f, boundField n = some f ∧
      GetCipAttribute CipQoSInit n =
        some { attribute_number := n, type := 0xC6, attribute_flags := 6,
               data := some (Loc.g_qos_dscp f) } ∧
      settableBit CipQoSInit n ≠ 0 := by
  interval_cases n
  · exact ⟨.urgent, rfl, rfl, by decide⟩
  · exact ⟨.scheduled, rfl, rfl, by decide⟩
  · exact ⟨.high, rfl, rfl, by decide⟩
  · exact ⟨.low, rfl, rfl, by decide⟩
  · exact ⟨.explicit, rfl, rfl, by decide⟩

/-! ## The decoded payload -/

theorem getDint_encodeDint (v : Nat) (hv : v < 2 ^ 32) (rest : List Nat) :
    GetDintFromMessage (encodeDint v ++ rest) = (v, rest) := by
  simp only [GetDintFromMessage, encodeDint, List.cons_append, List.nil_append,
    List.getD_cons_zero, List.getD_cons_succ, List.drop_succ_cons, List.drop_zero]
  congr 1
  omega

/-! ## The branches of `SetAttributeSingleQoS` -/

theorem setAttributeBody_absent (inst : CipInstance) (req : CipMessageRouterRequest)
    (s : QosState) (h : GetCipAttribute inst req.request_path_attribute_number = none) :
    setAttributeBody inst req s = (CipError.kCipErrorAttributeNotSupported, s, req.data) := by
  simp [setAttributeBody, h]

theorem setAttributeBody_not_settable (inst : CipInstance) (req : CipMessageRouterRequest)
    (s : QosState) (h : settableBit inst req.request_path_attribute_number = 0) :
    setAttributeBody inst req s = (CipError.kCipErrorAttributeNotSupported, s, req.data) := by
  unfold settableBit at h
  unfold setAttributeBody
  cases hf : GetCipAttribute inst req.request_path_attribute_number with
  | none => rfl
  | some attr =>
    simp only [h, ne_eq, not_true_eq_false, if_false]

theorem setAttributeBody_settable (inst : CipInstance) (req : CipMessageRouterRequest)
    (s : QosState) (attr : CipAttributeStruct)
    (hf : GetCipAttribute inst req.request_path_attribute_number = some attr)
    (hb : settableBit inst req.request_path_attribute_number ≠ 0) :
    setAttributeBody inst req s =
      if 1 ≤ (GetDintFromMessage req.data).1 % 2 ^ CipUintBits ∧
          (GetDintFromMessage req.data).1 % 2 ^ CipUintBits ≤ 62 then
        match attr.data with
        | some data =>
          (CipError.kCipErrorSuccess,
            writeUsint s data ((GetDintFromMessage req.data).1 % 2 ^ CipUintBits),
            (GetDintFromMessage req.data).2)
        | none => (CipError.kCipErrorNotEnoughData, s, (GetDintFromMessage req.data).2)
      else (CipError.kCipErrorInvalidAttributeValue, s, (GetDintFromMessage req.data).2) := by
  unfold settableBit at hb
  unfold setAttributeBody
  simp only [hf, hb, ne_eq, not_false_eq_true, if_true]
  by_cases hr : 1 ≤ (GetDintFromMessage req.data).1 % 2 ^ CipUintBits ∧
      (GetDintFromMessage req.data).1 % 2 ^ CipUintBits ≤ 62
  · have hn : ¬ ((GetDintFromMessage req.data).1 % 2 ^ CipUintBits ≤ 0 ∨
        (GetDintFromMessage req.data).1 % 2 ^ CipUintBits ≥ 63) := by omega
    rw [if_pos hn, if_pos hr]
  · have hn : ¬ ¬ ((GetDintFromMessage req.data).1 % 2 ^ CipUintBits ≤ 0 ∨
        (GetDintFromMessage req.data).1 % 2 ^ CipUintBits ≥ 63) := by omega
    rw [if_neg hn, if_neg hr]

theorem readUsint_writeUsint_g_qos_dscp (s : QosState) (f : DscpField) (x : Nat) :
    readUsint (writeUsint s (Loc.g_qos_dscp f) x) (Loc.g_qos_dscp f) = x % 2 ^ 8 := by
  cases f <;> rfl

theorem writeUsint_g_qos_dscp_active (s : QosState) (f : DscpField) (x : Nat) :
    (writeUsint s (Loc.g_qos_dscp f) x).s_active_dscp = s.s_active_dscp := by
  rfl

theorem writeUsint_nv_log (s : QosState) (l : Loc) (x : Nat) :
    (writeUsint s l x).nv_log = s.nv_log := by
  cases l <;> rfl

/-- What a request does on the registered QoS instance when it addresses one of
the attributes 4..8: the decoded value, narrowed to `CipUint`, decides between
a store into the bound member and a rejection. -/
theorem setAttributeBody_registered_settable (req : CipMessageRouterRequest) (s : QosState)
    (h4 : 4 ≤ req.request_path_attribute_number) (h8 : req.request_path_attribute_number ≤ 8) :
    ∃ f, boundField req.request_path_attribute_number = some f ∧
      setAttributeBody CipQoSInit req s =
        if 1 ≤ (GetDintFromMessage req.data).1 % 2 ^ CipUintBits ∧
            (GetDintFromMessage req.data).1 % 2 ^ CipUintBits ≤ 62 then
          (CipError.kCipErrorSuccess,
            writeUsint s (Loc.g_qos_dscp f) ((GetDintFromMessage req.data).1 % 2 ^ CipUintBits),
            (GetDintFromMessage req.data).2)
        else (CipError.kCipErrorInvalidAttributeValue, s, (GetDintFromMessage req.data).2) := by
  obtain ⟨f, hf, hg, hb⟩ := getCipAttribute_settable req.request_path_attribute_number h4 h8
  exact ⟨f, hf, by rw [setAttributeBody_settable CipQoSInit req s _ hg hb]⟩

theorem setAttributeBody_registered_other (req : CipMessageRouterRequest) (s : QosState)
    (h : ¬ (4 ≤ req.request_path_attribute_number ∧ req.request_path_attribute_number ≤ 8)) :
    (GetCipAttribute CipQoSInit req.request_path_attribute_number = none ∨
      settableBit CipQoSInit req.request_path_attribute_number = 0) ∧
    setAttributeBody CipQoSInit req s =
      (CipError.kCipErrorAttributeNotSupported, s, req.data) := by
  by_cases hr : 1 ≤ req.request_path_attribute_number ∧ req.request_path_attribute_number ≤ 8
  · have hb : settableBit CipQoSInit req.request_path_attribute_number = 0 := by
      obtain ⟨h1, h8⟩ := hr
      have h3 : req.request_path_attribute_number ≤ 3 := by omega
      generalize req.request_path_attribute_number = n at h1 h3
      interval_cases n <;> decide
    exact ⟨Or.inr hb, setAttributeBody_not_settable CipQoSInit req s hb⟩
  · have hn := getCipAttribute_unregistered req.request_path_attribute_number hr
    exact ⟨Or.inl hn, setAttributeBody_absent CipQoSInit req s hn⟩

/-- On the registered QoS instance a set request either leaves the globals as
they are or stores one byte into a member of `g_qos.dscp`. -/
theorem setAttributeBody_registered_state (req : CipMessageRouterRequest) (s : QosState) :
    (setAttributeBody CipQoSInit req s).2.1 = s ∨
    ∃ f x, (setAttributeBody CipQoSInit req s).2.1 = writeUsint s (Loc.g_qos_dscp f) x := by
  by_cases h : 4 ≤ req.request_path_attribute_number ∧ req.request_path_attribute_number ≤ 8
  · obtain ⟨f, _, hbody⟩ := setAttributeBody_registered_settable req s h.1 h.2
    rw [hbody]
    split
    · exact Or.inr ⟨f, _, rfl⟩
    · exact Or.inl rfl
  · rw [(setAttributeBody_registered_other req s h).2]
    exact Or.inl rfl

/-- On the registered instance, for an attribute in 4..8 and a payload carrying
v, the service reports Success exactly when v narrowed to `CipUint` lies in
1..62, and InvalidAttributeValue otherwise. -/
theorem set_registered_status (a v service : Nat) (rest : List Nat) (s : QosState)
    (ha4 : 4 ≤ a) (ha8 : a ≤ 8) (hv : v < 2 ^ 32) :
    (SetAttributeSingleQoS CipQoSInit
        { service := service, request_path_attribute_number := a,
          data := encodeDint v ++ rest } s).response.general_status
      = if 1 ≤ v % 2 ^ CipUintBits ∧ v % 2 ^ CipUintBits ≤ 62 then CipError.kCipErrorSuccess
        else CipError.kCipErrorInvalidAttributeValue := by
  obtain ⟨f, _, hbody⟩ := setAttributeBody_registered_settable
    { service := service, request_path_attribute_number := a, data := encodeDint v ++ rest } s
    ha4 ha8
  show (setAttributeBody CipQoSInit _ s).1 = _
  rw [hbody]
  simp only [getDint_encodeDint v hv rest]
  split <;> rfl

/-! ## Bitwise OR on `int` -/

theorem nat_ldiff_zero_right (n : Nat) : Nat.ldiff n 0 = n := by
  apply Nat.eq_of_testBit_eq
  intro i
  simp [Nat.testBit_ldiff]

theorem nat_ldiff_zero_left (n : Nat) : Nat.ldiff 0 n = 0 := by
  apply Nat.eq_of_testBit_eq
  intro i
  simp [Nat.testBit_ldiff]

theorem nat_lor_eq_zero_left {a b : Nat} (h : a ||| b = 0) : a = 0 := by
  apply Nat.eq_of_testBit_eq
  intro i
  have hbit := congrArg (fun x => Nat.testBit x i) h
  simp [Nat.testBit_or] at hbit
  simp [hbit.1]

theorem int_zero_lor (x : Int) : Int.lor 0 x = x := by
  cases x with
  | ofNat n => show Int.ofNat (0 ||| n) = Int.ofNat n; simp
  | negSucc n => show Int.negSucc (Nat.ldiff n 0) = Int.negSucc n; rw [nat_ldiff_zero_right]

theorem int_lor_zero (x : Int) : Int.lor x 0 = x := by
  cases x with
  | ofNat n => show Int.ofNat (n ||| 0) = Int.ofNat n; simp
  | negSucc n => show Int.negSucc (Nat.ldiff n 0) = Int.negSucc n; rw [nat_ldiff_zero_right]

theorem int_negOne_lor (x : Int) : Int.lor (-1) x = -1 := by
  cases x with
  | ofNat n => show Int.negSucc (Nat.ldiff 0 n) = Int.negSucc 0; rw [nat_ldiff_zero_left]
  | negSucc n => show Int.negSucc (0 &&& n) = Int.negSucc 0; simp

theorem int_lor_negOne (x : Int) : Int.lor x (-1) = -1 := by
  cases x with
  | ofNat n => show Int.negSucc (Nat.ldiff 0 n) = Int.negSucc 0; rw [nat_ldiff_zero_left]
  | negSucc n => show Int.negSucc (n &&& 0) = Int.negSucc 0; simp

theorem int_lor_ne_zero_of_left {x : Int} (y : Int) (h : x ≠ 0) : Int.lor x y ≠ 0 := by
  cases x with
  | ofNat a =>
    cases y with
    | ofNat b =>
      show Int.ofNat (a ||| b) ≠ 0
      intro hc
      apply h
      have h0 : a ||| b = 0 := Int.ofNat_eq_zero.mp hc
      rw [nat_lor_eq_zero_left h0]; rfl
    | negSucc b => show Int.negSucc (Nat.ldiff b a) ≠ 0; exact Int.negSucc_ne_zero _
  | negSucc a =>
    cases y with
    | ofNat b => show Int.negSucc (Nat.ldiff a b) ≠ 0; exact Int.negSucc_ne_zero _
    | negSucc b => show Int.negSucc (a &&& b) ≠ 0; exact Int.negSucc_ne_zero _

/-! ## nvdata.c: the two paths of each function -/

theorem storeCalls_append_store (log : List NvEvent) (obj : CipQosObject) :
    storeCalls (log ++ [NvEvent.store obj]) = storeCalls log + 1 := by
  simp [storeCalls, List.countP_append]

theorem storeCalls_append_load (log : List NvEvent) (obj : CipQosObject) :
    storeCalls (log ++ [NvEvent.load obj]) = storeCalls log := by
  simp [storeCalls, List.countP_append]

theorem NvdataLoad_load_ok {σ : Type} (port : NvPort σ) (s : QosState) (m : σ)
    (h : (port.NvQosLoad m s.g_qos).1 = 0) :
    NvdataLoad port s m =
      { status := Int.lor kEipStatusOk (port.NvQosLoad m s.g_qos).1
        state := (callNvQosLoad port s m).state
        medium := (port.NvQosLoad m s.g_qos).2.2 } := by
  have hrc : ¬ ((0 : Int) ≠ (callNvQosLoad port s m).status) := fun hc => hc h.symm
  unfold NvdataLoad
  simp only [if_neg hrc]
  rfl

theorem NvdataLoad_load_failed {σ : Type} (port : NvPort σ) (s : QosState) (m : σ)
    (h : (port.NvQosLoad m s.g_qos).1 ≠ 0) :
    NvdataLoad port s m =
      { status :=
          Int.lor (Int.lor kEipStatusOk (port.NvQosLoad m s.g_qos).1)
            (port.NvQosStore (port.NvQosLoad m s.g_qos).2.2 (port.NvQosLoad m s.g_qos).2.1).1
        state :=
          (callNvQosStore port (callNvQosLoad port s m).state
            (callNvQosLoad port s m).medium).state
        medium :=
          (port.NvQosStore (port.NvQosLoad m s.g_qos).2.2 (port.NvQosLoad m s.g_qos).2.1).2 } := by
  have hrc : (0 : Int) ≠ (callNvQosLoad port s m).status := fun hc => h hc.symm
  unfold NvdataLoad
  simp only [if_pos hrc]
  rfl

/-! ## Claims -/

/-- C1: a set request whose attribute number is absent from the instance, or whose
bit in the class's set-permission array is clear, gets general status
AttributeNotSupported, whatever the state and the payload; on the instance
registered by `CipQoSInit` this covers every attribute number outside 4..8
(attributes 1, 2, 3 and all unregistered numbers). -/
theorem C1_not_settable_is_AttributeNotSupported :
    (∀ (inst : CipInstance) (req : CipMessageRouterRequest) (s : QosState),
      (GetCipAttribute inst req.request_path_attribute_number = none ∨
        settableBit inst req.request_path_attribute_number = 0) →
      (SetAttributeSingleQoS inst req s).response.general_status
        = CipError.kCipErrorAttributeNotSupported) ∧
    (∀ (req : CipMessageRouterRequest) (s : QosState),
      ¬ (4 ≤ req.request_path_attribute_number ∧ req.request_path_attribute_number ≤ 8) →
      (GetCipAttribute CipQoSInit req.request_path_attribute_number = none ∨
        settableBit CipQoSInit req.request_path_attribute_number = 0) ∧
      (SetAttributeSingleQoS CipQoSInit req s).response.general_status
        = CipError.kCipErrorAttributeNotSupported) := by
  constructor
  · intro inst req s h
    show (setAttributeBody inst req s).1 = _
    rcases h with h | h
    · rw [setAttributeBody_absent inst req s h]
    · rw [setAttributeBody_not_settable inst req s h]
  · intro req s h
    refine ⟨(setAttributeBody_registered_other req s h).1, ?_⟩
    show (setAttributeBody CipQoSInit req s).1 = _
    rw [(setAttributeBody_registered_other req s h).2]

/-- C1 at a concrete request: attribute 1 of the registered instance, payload 40. -/
theorem C1_not_settable_is_AttributeNotSupported_witness :
    ((GetCipAttribute CipQoSInit 1 = none ∨ settableBit CipQoSInit 1 = 0) ∧
      (SetAttributeSingleQoS CipQoSInit
          { service := 0x10, request_path_attribute_number := 1, data := encodeDint 40 }
          initialState).response.general_status
        = CipError.kCipErrorAttributeNotSupported) ∧
    (¬ (4 ≤ 9 ∧ 9 ≤ 8) ∧
      (SetAttributeSingleQoS CipQoSInit
          { service := 0x10, request_path_attribute_number := 9, data := encodeDint 40 }
          initialState).response.general_status
        = CipError.kCipErrorAttributeNotSupported) :=
  ⟨⟨Or.inr (by decide),
    C1_not_settable_is_AttributeNotSupported.1 CipQoSInit
      { service := 0x10, request_path_attribute_number := 1, data := encodeDint 40 }
      initialState (Or.inr (by decide))⟩,
   ⟨by decide,
    (C1_not_settable_is_AttributeNotSupported.2
      { service := 0x10, request_path_attribute_number := 9, data := encodeDint 40 }
      initialState (by decide)).2⟩⟩

/-- C2 (evaluation at the failing input): the 4-byte payload 01 00 01 00 carries
the value 65537, which is at least 63; addressed to attribute 4 of the
registered instance it is narrowed to the 16-bit `CipUint` value 1 before the
range test, so the service reports Success and stores 1 in `g_qos.dscp.urgent`. -/
theorem C2_payload_65537_reports_success :
    encodeDint 65537 = [1, 0, 1, 0] ∧
    (GetDintFromMessage (encodeDint 65537)).1 = 65537 ∧
    ¬ (1 ≤ 65537 ∧ 65537 ≤ 62) ∧
    (SetAttributeSingleQoS CipQoSInit
        { service := 0x10, request_path_attribute_number := 4, data := encodeDint 65537 }
        initialState).response.general_status = CipError.kCipErrorSuccess ∧
    (SetAttributeSingleQoS CipQoSInit
        { service := 0x10, request_path_attribute_number := 4, data := encodeDint 65537 }
        initialState).state.g_qos.dscp.urgent = 1 := by
  refine ⟨by decide, by decide, by decide, by decide, by decide⟩

/-- C3: round trip. For every attribute number a in 4..8 and every value v in
1..62 sent as a 4-byte little-endian payload, the set service on the registered
instance reports Success and afterwards the storage bound to attribute a (the
byte a Get of that attribute reads, the attribute being registered gettable)
holds exactly v. -/
theorem C3_set_then_read_round_trip (a v service : Nat) (rest : List Nat) (s : QosState)
    (ha4 : 4 ≤ a) (ha8 : a ≤ 8) (hv1 : 1 ≤ v) (hv62 : v ≤ 62) :
    ∃ attr data,
      GetCipAttribute CipQoSInit a = some attr ∧ attr.data = some data ∧
      attr.attribute_flags &&& kGetableSingle ≠ 0 ∧
      (SetAttributeSingleQoS CipQoSInit
          { service := service, request_path_attribute_number := a,
            data := encodeDint v ++ rest } s).response.general_status
        = CipError.kCipErrorSuccess ∧
      readUsint
        (SetAttributeSingleQoS CipQoSInit
          { service := service, request_path_attribute_number := a,
            data := encodeDint v ++ rest } s).state data = v := by
  obtain ⟨f, hbf, hg, _⟩ := getCipAttribute_settable a ha4 ha8
  obtain ⟨f2, hf2, hbody⟩ := setAttributeBody_registered_settable
    { service := service, request_path_attribute_number := a, data := encodeDint v ++ rest } s
    ha4 ha8
  have hv32 : v < 2 ^ 32 := by omega
  have hdec := getDint_encodeDint v hv32 rest
  have hmod : v % 2 ^ CipUintBits = v := by
    unfold CipUintBits
    omega
  have hrange : 1 ≤ v % 2 ^ CipUintBits ∧ v % 2 ^ CipUintBits ≤ 62 := by
    rw [hmod]; exact ⟨hv1, hv62⟩
  simp only [hdec] at hbody
  rw [if_pos hrange, hmod] at hbody
  have hf : f2 = f := by
    have hf3 : boundField a = some f2 := hf2
    rw [hbf] at hf3
    exact (Option.some.inj hf3).symm
  subst hf
  have hget : (6 : Nat) &&& kGetableSingle ≠ 0 := by decide
  refine ⟨_, _, hg, rfl, hget, ?_, ?_⟩
  · show (setAttributeBody CipQoSInit _ s).1 = _
    rw [hbody]
  · show readUsint (setAttributeBody CipQoSInit _ s).2.1 _ = v
    rw [hbody]
    show readUsint (writeUsint s (Loc.g_qos_dscp f2) v) (Loc.g_qos_dscp f2) = v
    rw [readUsint_writeUsint_g_qos_dscp]
    omega

/-- C3 at a concrete request: attribute 4, value 40, from the initial state. -/
theorem C3_set_then_read_round_trip_witness :
    (4 ≤ 4 ∧ 4 ≤ 8 ∧ 1 ≤ 40 ∧ 40 ≤ 62) ∧
    ∃ attr data,
      GetCipAttribute CipQoSInit 4 = some attr ∧ attr.data = some data ∧
      attr.attribute_flags &&& kGetableSingle ≠ 0 ∧
      (SetAttributeSingleQoS CipQoSInit
          { service := 0x10, request_path_attribute_number := 4,
            data := encodeDint 40 ++ [] } initialState).response.general_status
        = CipError.kCipErrorSuccess ∧
      readUsint
        (SetAttributeSingleQoS CipQoSInit
          { service := 0x10, request_path_attribute_number := 4,
            data := encodeDint 40 ++ [] } initialState).state data = 40 :=
  ⟨by decide,
   C3_set_then_read_round_trip 4 40 0x10 [] initialState (by decide) (by decide)
     (by decide) (by decide)⟩

/-- C4: deferred activation. On the registered instance a set request never
changes `s_active_dscp`, whatever the state, attribute number and payload, so
`CipQosGetDscpPriority` gives the same answer for every selector before and
after it. From the initial state, setting attribute 4 (urgent) to 40 succeeds,
the urgent priority still reads 55 right after, and reads 40 only once
`CipQosUpdateUsedSetQosValues` has run. -/
theorem C4_set_defers_activation :
    (∀ (req : CipMessageRouterRequest) (s : QosState),
      (SetAttributeSingleQoS CipQoSInit req s).state.s_active_dscp = s.s_active_dscp) ∧
    (∀ (req : CipMessageRouterRequest) (s : QosState) (p : ConnectionObjectPriority),
      CipQosGetDscpPriority (SetAttributeSingleQoS CipQoSInit req s).state p
        = CipQosGetDscpPriority s p) ∧
    (SetAttributeSingleQoS CipQoSInit
        { service := 0x10, request_path_attribute_number := 4, data := encodeDint 40 }
        initialState).response.general_status = CipError.kCipErrorSuccess ∧
    CipQosGetDscpPriority initialState .kConnectionObjectPriorityUrgent = 55 ∧
    CipQosGetDscpPriority
        (SetAttributeSingleQoS CipQoSInit
          { service := 0x10, request_path_attribute_number := 4, data := encodeDint 40 }
          initialState).state .kConnectionObjectPriorityUrgent = 55 ∧
    CipQosGetDscpPriority
        (CipQosUpdateUsedSetQosValues
          (SetAttributeSingleQoS CipQoSInit
            { service := 0x10, request_path_attribute_number := 4, data := encodeDint 40 }
            initialState).state) .kConnectionObjectPriorityUrgent = 40 := by
  have hframe : ∀ (req : CipMessageRouterRequest) (s : QosState),
      (SetAttributeSingleQoS CipQoSInit req s).state.s_active_dscp = s.s_active_dscp := by
    intro req s
    show (setAttributeBody CipQoSInit req s).2.1.s_active_dscp = s.s_active_dscp
    rcases setAttributeBody_registered_state req s with h | ⟨f, x, h⟩
    · rw [h]
    · rw [h, writeUsint_g_qos_dscp_active]
  refine ⟨hframe, ?_, by decide, by decide, by decide, by decide⟩
  intro req s p
  cases p <;> simp only [CipQosGetDscpPriority, hframe req s]

/-- C5: activation replaces the whole active generation. After
`CipQosUpdateUsedSetQosValues` the active DSCP record equals the configured
one in all seven members, the configured object is untouched, and the lookups
for Low, High, Scheduled, Urgent and Explicit return the configured low, high,
scheduled, urgent and explicit values as they stood at activation. -/
theorem C5_activation_copies_configured (s : QosState) :
    (CipQosUpdateUsedSetQosValues s).s_active_dscp = s.g_qos.dscp ∧
    (∀ f : DscpField,
      (CipQosUpdateUsedSetQosValues s).s_active_dscp.get f = s.g_qos.dscp.get f) ∧
    (CipQosUpdateUsedSetQosValues s).g_qos = s.g_qos ∧
    CipQosGetDscpPriority (CipQosUpdateUsedSetQosValues s) .kConnectionObjectPriorityLow
      = s.g_qos.dscp.low ∧
    CipQosGetDscpPriority (CipQosUpdateUsedSetQosValues s) .kConnectionObjectPriorityHigh
      = s.g_qos.dscp.high ∧
    CipQosGetDscpPriority (CipQosUpdateUsedSetQosValues s) .kConnectionObjectPriorityScheduled
      = s.g_qos.dscp.scheduled ∧
    CipQosGetDscpPriority (CipQosUpdateUsedSetQosValues s) .kConnectionObjectPriorityUrgent
      = s.g_qos.dscp.urgent ∧
    CipQosGetDscpPriority (CipQosUpdateUsedSetQosValues s) .kConnectionObjectPriorityExplicit
      = s.g_qos.dscp.explicit :=
  ⟨rfl, fun _ => rfl, rfl, rfl, rfl, rfl, rfl, rfl⟩

/-- C6: default fallback mapping. `CipQosGetDscpPriority` yields a value for
every selector, and for every selector other than Low, High, Scheduled and
Urgent (Explicit and every unrecognized value) that value is the active
explicit DSCP value. -/
theorem C6_lookup_falls_back_to_explicit (s : QosState) :
    (∀ p : ConnectionObjectPriority, ∃ v, CipQosGetDscpPriority s p = v) ∧
    (∀ p : ConnectionObjectPriority,
      p ≠ .kConnectionObjectPriorityLow → p ≠ .kConnectionObjectPriorityHigh →
      p ≠ .kConnectionObjectPriorityScheduled → p ≠ .kConnectionObjectPriorityUrgent →
      CipQosGetDscpPriority s p = s.s_active_dscp.explicit) ∧
    CipQosGetDscpPriority s .kConnectionObjectPriorityExplicit = s.s_active_dscp.explicit ∧
    (∀ raw : Nat, CipQosGetDscpPriority s (.unrecognized raw) = s.s_active_dscp.explicit) := by
  refine ⟨fun p => ⟨_, rfl⟩, ?_, rfl, fun _ => rfl⟩
  intro p h1 h2 h3 h4
  cases p with
  | kConnectionObjectPriorityLow => exact absurd rfl h1
  | kConnectionObjectPriorityHigh => exact absurd rfl h2
  | kConnectionObjectPriorityScheduled => exact absurd rfl h3
  | kConnectionObjectPriorityUrgent => exact absurd rfl h4
  | kConnectionObjectPriorityExplicit => rfl
  | unrecognized raw => rfl

/-- C6 at a concrete selector: the unrecognized raw value 9 in the initial state. -/
theorem C6_lookup_falls_back_to_explicit_witness :
    (ConnectionObjectPriority.unrecognized 9 ≠ .kConnectionObjectPriorityLow ∧
      ConnectionObjectPriority.unrecognized 9 ≠ .kConnectionObjectPriorityHigh ∧
      ConnectionObjectPriority.unrecognized 9 ≠ .kConnectionObjectPriorityScheduled ∧
      ConnectionObjectPriority.unrecognized 9 ≠ .kConnectionObjectPriorityUrgent) ∧
    CipQosGetDscpPriority initialState (.unrecognized 9) = 27 :=
  ⟨by decide,
   (C6_lookup_falls_back_to_explicit initialState).2.1 (.unrecognized 9)
     (by decide) (by decide) (by decide) (by decide)⟩

/-- C8: boot persistence fallback. With the NV routines as external
collaborators returning 0 on success and nonzero on failure: if the load step
of `NvdataLoad` fails, `NvQosStore` is called exactly once, after the load and
before the return, on the QoS object exactly as the load left it; if the load
succeeds, `NvQosStore` is not called. In both cases `g_qos` is what the load
left and the active values are untouched, so a failing load that leaves the
object untouched at boot stores the compiled-in defaults. -/
theorem C8_load_failure_stores_once {σ : Type} (port : NvPort σ) (s : QosState) (m : σ) :
    ((port.NvQosLoad m s.g_qos).1 ≠ 0 →
      (NvdataLoad port s m).state.nv_log
        = s.nv_log ++ [NvEvent.load s.g_qos, NvEvent.store (port.NvQosLoad m s.g_qos).2.1] ∧
      storeCalls (NvdataLoad port s m).state.nv_log = storeCalls s.nv_log + 1 ∧
      (NvdataLoad port s m).medium
        = (port.NvQosStore (port.NvQosLoad m s.g_qos).2.2 (port.NvQosLoad m s.g_qos).2.1).2) ∧
    ((port.NvQosLoad m s.g_qos).1 = 0 →
      (NvdataLoad port s m).state.nv_log = s.nv_log ++ [NvEvent.load s.g_qos] ∧
      storeCalls (NvdataLoad port s m).state.nv_log = storeCalls s.nv_log ∧
      (NvdataLoad port s m).medium = (port.NvQosLoad m s.g_qos).2.2) ∧
    (NvdataLoad port s m).state.g_qos = (port.NvQosLoad m s.g_qos).2.1 ∧
    (NvdataLoad port s m).state.s_active_dscp = s.s_active_dscp ∧
    (s.g_qos = g_qos_init → (port.NvQosLoad m s.g_qos).1 ≠ 0 →
      (port.NvQosLoad m s.g_qos).2.1 = s.g_qos →
      (NvdataLoad port s m).state.g_qos = g_qos_init ∧
      (NvdataLoad port s m).state.nv_log
        = s.nv_log ++ [NvEvent.load g_qos_init, NvEvent.store g_qos_init]) := by
  have hfail : (port.NvQosLoad m s.g_qos).1 ≠ 0 →
      (NvdataLoad port s m).state.nv_log
        = s.nv_log ++ [NvEvent.load s.g_qos, NvEvent.store (port.NvQosLoad m s.g_qos).2.1] ∧
      (NvdataLoad port s m).state.g_qos = (port.NvQosLoad m s.g_qos).2.1 ∧
      (NvdataLoad port s m).state.s_active_dscp = s.s_active_dscp := by
    intro h
    rw [NvdataLoad_load_failed port s m h]
    refine ⟨?_, rfl, rfl⟩
    show (s.nv_log ++ [NvEvent.load s.g_qos]) ++ [NvEvent.store _] = _
    rw [List.append_assoc]
    rfl
  have hok : (port.NvQosLoad m s.g_qos).1 = 0 →
      (NvdataLoad port s m).state.nv_log = s.nv_log ++ [NvEvent.load s.g_qos] ∧
      (NvdataLoad port s m).state.g_qos = (port.NvQosLoad m s.g_qos).2.1 ∧
      (NvdataLoad port s m).state.s_active_dscp = s.s_active_dscp := by
    intro h
    rw [NvdataLoad_load_ok port s m h]
    exact ⟨rfl, rfl, rfl⟩
  refine ⟨?_, ?_, ?_, ?_, ?_⟩
  · intro h
    refine ⟨(hfail h).1, ?_, ?_⟩
    · rw [(hfail h).1]
      have hsplit : s.nv_log ++ [NvEvent.load s.g_qos,
          NvEvent.store (port.NvQosLoad m s.g_qos).2.1]
          = (s.nv_log ++ [NvEvent.load s.g_qos])
            ++ [NvEvent.store (port.NvQosLoad m s.g_qos).2.1] := by
        rw [List.append_assoc]; rfl
      rw [hsplit, storeCalls_append_store, storeCalls_append_load]
    · rw [NvdataLoad_load_failed port s m h]
  · intro h
    refine ⟨(hok h).1, ?_, ?_⟩
    · rw [(hok h).1, storeCalls_append_load]
    · rw [NvdataLoad_load_ok port s m h]
  · by_cases h : (port.NvQosLoad m s.g_qos).1 = 0
    · exact (hok h).2.1
    · exact (hfail h).2.1
  · by_cases h : (port.NvQosLoad m s.g_qos).1 = 0
    · exact (hok h).2.2
    · exact (hfail h).2.2
  · intro hinit h hsame
    refine ⟨?_, ?_⟩
    · rw [(hfail h).2.1, hsame, hinit]
    · rw [(hfail h).1, hsame, hinit]

/-- C8 at a concrete boot: the initial state on an empty sample medium, where the
load fails and leaves the object untouched. -/
theorem C8_load_failure_stores_once_witness :
    ((imagePort.NvQosLoad none initialState.g_qos).1 ≠ 0 ∧
      (NvdataLoad imagePort initialState none).state.nv_log
        = initialState.nv_log ++ [NvEvent.load initialState.g_qos,
            NvEvent.store (imagePort.NvQosLoad none initialState.g_qos).2.1] ∧
      storeCalls (NvdataLoad imagePort initialState none).state.nv_log
        = storeCalls initialState.nv_log + 1 ∧
      (NvdataLoad imagePort initialState none).medium
        = (imagePort.NvQosStore (imagePort.NvQosLoad none initialState.g_qos).2.2
            (imagePort.NvQosLoad none initialState.g_qos).2.1).2) ∧
    ((imagePort.NvQosLoad (some g_qos_init) initialState.g_qos).1 = 0 ∧
      (NvdataLoad imagePort initialState (some g_qos_init)).state.nv_log
        = initialState.nv_log ++ [NvEvent.load initialState.g_qos] ∧
      storeCalls (NvdataLoad imagePort initialState (some g_qos_init)).state.nv_log
        = storeCalls initialState.nv_log ∧
      (NvdataLoad imagePort initialState (some g_qos_init)).medium
        = (imagePort.NvQosLoad (some g_qos_init) initialState.g_qos).2.2) ∧
    (initialState.g_qos = g_qos_init ∧
      (imagePort.NvQosLoad none initialState.g_qos).2.1 = initialState.g_qos ∧
      (NvdataLoad imagePort initialState none).state.g_qos = g_qos_init ∧
      (NvdataLoad imagePort initialState none).state.nv_log
        = initialState.nv_log ++ [NvEvent.load g_qos_init, NvEvent.store g_qos_init]) :=
  ⟨⟨by decide, (C8_load_failure_stores_once imagePort initialState none).1 (by decide)⟩,
   ⟨by decide,
    (C8_load_failure_stores_once imagePort initialState (some g_qos_init)).2.1 (by decide)⟩,
   ⟨by decide, by decide,
    (C8_load_failure_stores_once imagePort initialState none).2.2.2.2
      (by decide) (by decide) (by decide)⟩⟩

/-- C9: the status returned by `NvdataLoad` is the bitwise OR of the load
outcome and, when the load failed, the store outcome; it is `kEipStatusOk` (0)
exactly when the load succeeded and nonzero whenever the load failed, even if
the fallback store succeeded; and, the NV routines returning 0 on success and
(-1) on failure as nvdata.c prescribes for them, it is `kEipStatusError`
whenever a failure of the load or of the store occurred, and never a third
value. -/
theorem C9_status_is_or_of_outcomes {σ : Type} (port : NvPort σ) (s : QosState) (m : σ) :
    (NvdataLoad port s m).status
      = Int.lor (port.NvQosLoad m s.g_qos).1
          (if (port.NvQosLoad m s.g_qos).1 ≠ 0 then
            (port.NvQosStore (port.NvQosLoad m s.g_qos).2.2 (port.NvQosLoad m s.g_qos).2.1).1
           else 0) ∧
    ((NvdataLoad port s m).status = kEipStatusOk ↔ (port.NvQosLoad m s.g_qos).1 = 0) ∧
    ((port.NvQosLoad m s.g_qos).1 ≠ 0 → (NvdataLoad port s m).status ≠ 0) ∧
    ((port.NvQosLoad m s.g_qos).1 = -1 → (NvdataLoad port s m).status = kEipStatusError) ∧
    ((port.NvQosLoad m s.g_qos).1 ≠ 0 →
      (port.NvQosStore (port.NvQosLoad m s.g_qos).2.2 (port.NvQosLoad m s.g_qos).2.1).1 = -1 →
      (NvdataLoad port s m).status = kEipStatusError) ∧
    (((port.NvQosLoad m s.g_qos).1 = 0 ∨ (port.NvQosLoad m s.g_qos).1 = -1) →
      ((port.NvQosStore (port.NvQosLoad m s.g_qos).2.2 (port.NvQosLoad m s.g_qos).2.1).1 = 0 ∨
        (port.NvQosStore (port.NvQosLoad m s.g_qos).2.2
          (port.NvQosLoad m s.g_qos).2.1).1 = -1) →
      (((port.NvQosLoad m s.g_qos).1 ≠ 0 ∨
          ((port.NvQosLoad m s.g_qos).1 ≠ 0 ∧
            (port.NvQosStore (port.NvQosLoad m s.g_qos).2.2
              (port.NvQosLoad m s.g_qos).2.1).1 ≠ 0)) →
        (NvdataLoad port s m).status = kEipStatusError) ∧
      ((NvdataLoad port s m).status = kEipStatusOk ∨
        (NvdataLoad port s m).status = kEipStatusError)) := by
  have hfail : (port.NvQosLoad m s.g_qos).1 ≠ 0 →
      (NvdataLoad port s m).status
        = Int.lor (port.NvQosLoad m s.g_qos).1
            (port.NvQosStore (port.NvQosLoad m s.g_qos).2.2
              (port.NvQosLoad m s.g_qos).2.1).1 := by
    intro h
    rw [NvdataLoad_load_failed port s m h]
    show Int.lor (Int.lor 0 _) _ = _
    rw [int_zero_lor]
  have hok : (port.NvQosLoad m s.g_qos).1 = 0 → (NvdataLoad port s m).status = 0 := by
    intro h
    rw [NvdataLoad_load_ok port s m h]
    show Int.lor 0 _ = 0
    rw [int_zero_lor, h]
  have hnz : (port.NvQosLoad m s.g_qos).1 ≠ 0 → (NvdataLoad port s m).status ≠ 0 := by
    intro h
    rw [hfail h]
    exact int_lor_ne_zero_of_left _ h
  have hneg : (port.NvQosLoad m s.g_qos).1 = -1 →
      (NvdataLoad port s m).status = kEipStatusError := by
    intro h
    have hne : (port.NvQosLoad m s.g_qos).1 ≠ 0 := by rw [h]; decide
    rw [hfail hne, h, int_negOne_lor]
    rfl
  refine ⟨?_, ?_, hnz, hneg, ?_, ?_⟩
  · by_cases h : (port.NvQosLoad m s.g_qos).1 = 0
    · rw [hok h, h]
      rfl
    · rw [hfail h, if_pos h]
  · constructor
    · intro hst
      by_contra h
      exact hnz h hst
    · exact hok
  · intro hne hst
    rw [hfail hne, hst, int_lor_negOne]
    rfl
  · intro hl _
    constructor
    · intro hf
      have hne : (port.NvQosLoad m s.g_qos).1 ≠ 0 := by
        rcases hf with h | h
        · exact h
        · exact h.1
      rcases hl with h0 | h1
      · exact absurd h0 hne
      · exact hneg h1
    · rcases hl with h0 | h1
      · exact Or.inl (hok h0)
      · exact Or.inr (hneg h1)

/-- C9 at concrete boots: the load fails with -1 and the store succeeds; the
load fails with -1 and the store fails with -1; the load succeeds. -/
theorem C9_status_is_or_of_outcomes_witness :
    ((((fixedPort (-1) 0).NvQosLoad () initialState.g_qos).1 = 0 ∨
        ((fixedPort (-1) 0).NvQosLoad () initialState.g_qos).1 = -1) ∧
      (NvdataLoad (fixedPort (-1) 0) initialState ()).status = kEipStatusError) ∧
    (((fixedPort (-1) (-1)).NvQosLoad () initialState.g_qos).1 ≠ 0 ∧
      ((fixedPort (-1) (-1)).NvQosStore
        ((fixedPort (-1) (-1)).NvQosLoad () initialState.g_qos).2.2
        ((fixedPort (-1) (-1)).NvQosLoad () initialState.g_qos).2.1).1 = -1 ∧
      (NvdataLoad (fixedPort (-1) (-1)) initialState ()).status = kEipStatusError) ∧
    (((fixedPort 0 0).NvQosLoad () initialState.g_qos).1 = 0 ∧
      (NvdataLoad (fixedPort 0 0) initialState ()).status = kEipStatusOk) ∧
    (((fixedPort (-1) 0).NvQosLoad () initialState.g_qos).1 ≠ 0 ∧
      (NvdataLoad (fixedPort (-1) 0) initialState ()).status ≠ 0) :=
  ⟨⟨by decide,
    ((C9_status_is_or_of_outcomes (fixedPort (-1) 0) initialState ()).2.2.2.2.2
      (by decide) (by decide)).1 (Or.inl (by decide))⟩,
   ⟨by decide, by decide,
    (C9_status_is_or_of_outcomes (fixedPort (-1) (-1)) initialState ()).2.2.2.2.1
      (by decide) (by decide)⟩,
   ⟨by decide,
    (C9_status_is_or_of_outcomes (fixedPort 0 0) initialState ()).2.1.mpr (by decide)⟩,
   ⟨by decide,
    (C9_status_is_or_of_outcomes (fixedPort (-1) 0) initialState ()).2.2.1 (by decide)⟩⟩

/-- C10: post-write hook gating. For every instance, descriptor and service
code, `NvQosSetCallback` calls `NvQosStore` exactly once, on the whole QoS
object, and returns that store's status when the descriptor's flags contain the
NV-data bit; otherwise it calls no store and returns `kEipStatusOk`. In neither
case does it change the configured object or the active values. -/
theorem C10_hook_stores_iff_flagged {σ : Type} (port : NvPort σ) (inst : CipInstance)
    (attr : CipAttributeStruct) (service : Nat) (s : QosState) (m : σ) :
    (0 ≠ (kNvDataFunc &&& attr.attribute_flags) →
      (NvQosSetCallback port inst attr service s m).state.nv_log
        = s.nv_log ++ [NvEvent.store s.g_qos] ∧
      storeCalls (NvQosSetCallback port inst attr service s m).state.nv_log
        = storeCalls s.nv_log + 1 ∧
      (NvQosSetCallback port inst attr service s m).status = (port.NvQosStore m s.g_qos).1 ∧
      (NvQosSetCallback port inst attr service s m).medium = (port.NvQosStore m s.g_qos).2) ∧
    (¬ (0 ≠ (kNvDataFunc &&& attr.attribute_flags)) →
      (NvQosSetCallback port inst attr service s m).state.nv_log = s.nv_log ∧
      (NvQosSetCallback port inst attr service s m).status = kEipStatusOk ∧
      (NvQosSetCallback port inst attr service s m).medium = m) ∧
    (NvQosSetCallback port inst attr service s m).state.g_qos = s.g_qos ∧
    (NvQosSetCallback port inst attr service s m).state.s_active_dscp = s.s_active_dscp := by
  by_cases h : 0 ≠ (kNvDataFunc &&& attr.attribute_flags)
  · have hcb : NvQosSetCallback port inst attr service s m = callNvQosStore port s m := by
      unfold NvQosSetCallback
      simp only [if_pos h]
    rw [hcb]
    refine ⟨fun _ => ⟨rfl, ?_, rfl, rfl⟩, fun hn => absurd h hn, rfl, rfl⟩
    show storeCalls (s.nv_log ++ [NvEvent.store s.g_qos]) = _
    rw [storeCalls_append_store]
  · have hcb : NvQosSetCallback port inst attr service s m
        = { status := kEipStatusOk, state := s, medium := m } := by
      unfold NvQosSetCallback
      simp only [if_neg h]
    rw [hcb]
    exact ⟨fun hp => absurd hp h, fun _ => ⟨rfl, rfl, rfl⟩, rfl, rfl⟩

/-- C10 at a concrete call: a descriptor flagged for NV data, on the registered
instance and an empty sample medium. -/
theorem C10_hook_stores_iff_flagged_witness :
    (0 ≠ (kNvDataFunc &&& (kSetable ||| kNvDataFunc)) ∧
      (NvQosSetCallback imagePort CipQoSInit
          { attribute_number := 4, type := kCipUsint,
            attribute_flags := kSetable ||| kNvDataFunc,
            data := some (Loc.g_qos_dscp .urgent) } 0x10 initialState none).state.nv_log
        = initialState.nv_log ++ [NvEvent.store initialState.g_qos]) ∧
    (¬ (0 ≠ (kNvDataFunc &&& (kGetableSingle ||| kSetable))) ∧
      (NvQosSetCallback imagePort CipQoSInit
          { attribute_number := 4, type := kCipUsint,
            attribute_flags := kGetableSingle ||| kSetable,
            data := some (Loc.g_qos_dscp .urgent) } 0x10 initialState none).state.nv_log
        = initialState.nv_log ∧
      (NvQosSetCallback imagePort CipQoSInit
          { attribute_number := 4, type := kCipUsint,
            attribute_flags := kGetableSingle ||| kSetable,
            data := some (Loc.g_qos_dscp .urgent) } 0x10 initialState none).status
        = kEipStatusOk) :=
  ⟨⟨by decide,
    ((C10_hook_stores_iff_flagged imagePort CipQoSInit
       { attribute_number := 4, type := kCipUsint, attribute_flags := kSetable ||| kNvDataFunc,
         data := some (Loc.g_qos_dscp .urgent) } 0x10 initialState none).1 (by decide)).1⟩,
   ⟨by decide,
    ((C10_hook_stores_iff_flagged imagePort CipQoSInit
       { attribute_number := 4, type := kCipUsint,
         attribute_flags := kGetableSingle ||| kSetable,
         data := some (Loc.g_qos_dscp .urgent) } 0x10 initialState none).2.1 (by decide)).1,
    ((C10_hook_stores_iff_flagged imagePort CipQoSInit
       { attribute_number := 4, type := kCipUsint,
         attribute_flags := kGetableSingle ||| kSetable,
         data := some (Loc.g_qos_dscp .urgent) } 0x10 initialState none).2.1 (by decide)).2.1⟩⟩

/-! ## Claims on the response, the status order and the reset -/

theorem setAttributeBody_status (inst : CipInstance) (req : CipMessageRouterRequest)
    (s : QosState) :
    (setAttributeBody inst req s).1 =
      match GetCipAttribute inst req.request_path_attribute_number with
      | none => CipError.kCipErrorAttributeNotSupported
      | some attr =>
        if settableBit inst req.request_path_attribute_number = 0 then
          CipError.kCipErrorAttributeNotSupported
        else if ¬ (1 ≤ receivedValue req ∧ receivedValue req ≤ 62) then
          CipError.kCipErrorInvalidAttributeValue
        else if attr.data = none then CipError.kCipErrorNotEnoughData
        else CipError.kCipErrorSuccess := by
  cases hf : GetCipAttribute inst req.request_path_attribute_number with
  | none => rw [setAttributeBody_absent inst req s hf]
  | some attr =>
    by_cases hb : settableBit inst req.request_path_attribute_number = 0
    · rw [setAttributeBody_not_settable inst req s hb]
      simp only [hb, if_true]
    · rw [setAttributeBody_settable inst req s attr hf hb]
      simp only [hb, if_false]
      by_cases hr : 1 ≤ receivedValue req ∧ receivedValue req ≤ 62
      · have hr2 : 1 ≤ (GetDintFromMessage req.data).1 % 2 ^ CipUintBits ∧
            (GetDintFromMessage req.data).1 % 2 ^ CipUintBits ≤ 62 := hr
        rw [if_pos hr2, if_neg (not_not.mpr hr)]
        cases hd : attr.data with
        | none => simp
        | some l => simp
      · have hr2 : ¬ (1 ≤ (GetDintFromMessage req.data).1 % 2 ^ CipUintBits ∧
            (GetDintFromMessage req.data).1 % 2 ^ CipUintBits ≤ 62) := hr
        rw [if_neg hr2, if_pos hr]

/-- C11: response shape. For every instance, request and state, whatever the
outcome, the response written by `SetAttributeSingleQoS` has
size_of_additional_status = 0 and data_length = 0, its reply_service is the
request's service code OR 0x80 (as a byte; for a service code that is a byte
this is exactly 0x80 ||| service), and the function returns `kEipStatusOkSend`. -/
theorem C11_response_shape (inst : CipInstance) (req : CipMessageRouterRequest)
    (s : QosState) :
    (SetAttributeSingleQoS inst req s).response.size_of_additional_status = 0 ∧
    (SetAttributeSingleQoS inst req s).response.data_length = 0 ∧
    (SetAttributeSingleQoS inst req s).response.reply_service
      = (0x80 ||| req.service) % 2 ^ 8 ∧
    (req.service < 2 ^ 8 →
      (SetAttributeSingleQoS inst req s).response.reply_service = 0x80 ||| req.service) ∧
    (SetAttributeSingleQoS inst req s).status = kEipStatusOkSend ∧
    ((SetAttributeSingleQoS inst req s).response.general_status = CipError.kCipErrorSuccess ∨
      (SetAttributeSingleQoS inst req s).response.general_status
        = CipError.kCipErrorAttributeNotSupported ∨
      (SetAttributeSingleQoS inst req s).response.general_status
        = CipError.kCipErrorInvalidAttributeValue ∨
      (SetAttributeSingleQoS inst req s).response.general_status
        = CipError.kCipErrorNotEnoughData) := by
  refine ⟨rfl, rfl, rfl, ?_, rfl, ?_⟩
  · intro h
    show (0x80 ||| req.service) % 2 ^ 8 = 0x80 ||| req.service
    apply Nat.mod_eq_of_lt
    exact Nat.or_lt_two_pow (by decide) h
  · cases (SetAttributeSingleQoS inst req s).response.general_status <;> simp

/-- C11 at concrete requests: service 0x10 with each of the four outcomes. -/
theorem C11_response_shape_witness :
    (0x10 < 2 ^ 8) ∧
    (SetAttributeSingleQoS CipQoSInit
        { service := 0x10, request_path_attribute_number := 4, data := encodeDint 40 }
        initialState).response.reply_service = 0x80 ||| 0x10 ∧
    (SetAttributeSingleQoS CipQoSInit
        { service := 0x10, request_path_attribute_number := 4, data := encodeDint 63 }
        initialState).response.reply_service = 0x80 ||| 0x10 ∧
    (SetAttributeSingleQoS CipQoSInit
        { service := 0x10, request_path_attribute_number := 1, data := encodeDint 40 }
        initialState).response.reply_service = 0x80 ||| 0x10 ∧
    (SetAttributeSingleQoS unboundInstance
        { service := 0x10, request_path_attribute_number := 4, data := encodeDint 40 }
        initialState).response.reply_service = 0x80 ||| 0x10 :=
  ⟨by decide,
   (C11_response_shape CipQoSInit
     { service := 0x10, request_path_attribute_number := 4, data := encodeDint 40 }
     initialState).2.2.2.1 (by decide),
   (C11_response_shape CipQoSInit
     { service := 0x10, request_path_attribute_number := 4, data := encodeDint 63 }
     initialState).2.2.2.1 (by decide),
   (C11_response_shape CipQoSInit
     { service := 0x10, request_path_attribute_number := 1, data := encodeDint 40 }
     initialState).2.2.2.1 (by decide),
   (C11_response_shape unboundInstance
     { service := 0x10, request_path_attribute_number := 4, data := encodeDint 40 }
     initialState).2.2.2.1 (by decide)⟩

/-- C12 (evaluation at the failing inputs): the payload 01 00 01 00 decodes to
65537, outside 1..62. Addressed to the settable attribute 4 of an instance whose
storage is unbound it yields NotEnoughData, and addressed to attribute 4 of the
registered instance it yields Success, where the order permission, range,
storage asks for InvalidAttributeValue in both cases; the payloads 0 and 63 on
the unbound attribute do yield InvalidAttributeValue. -/
theorem C12_payload_65537_passes_range_check :
    (∃ attr, GetCipAttribute unboundInstance 4 = some attr ∧ attr.data = none) ∧
    settableBit unboundInstance 4 ≠ 0 ∧
    (GetDintFromMessage (encodeDint 65537)).1 = 65537 ∧
    (SetAttributeSingleQoS unboundInstance
        { service := 0x10, request_path_attribute_number := 4, data := encodeDint 65537 }
        initialState).response.general_status = CipError.kCipErrorNotEnoughData ∧
    (SetAttributeSingleQoS CipQoSInit
        { service := 0x10, request_path_attribute_number := 4, data := encodeDint 65537 }
        initialState).response.general_status = CipError.kCipErrorSuccess ∧
    (SetAttributeSingleQoS unboundInstance
        { service := 0x10, request_path_attribute_number := 4, data := encodeDint 63 }
        initialState).response.general_status = CipError.kCipErrorInvalidAttributeValue ∧
    (SetAttributeSingleQoS unboundInstance
        { service := 0x10, request_path_attribute_number := 4, data := encodeDint 0 }
        initialState).response.general_status = CipError.kCipErrorInvalidAttributeValue := by
  refine ⟨⟨_, rfl, rfl⟩, by decide, by decide, by decide, by decide, by decide, by decide⟩

/-- C13: `CipQosResetAttributesToDefaultValues` sets, from any state, every
configured value to its compiled-in default (q_frames_enable false, event 59,
general 47, urgent 55, scheduled 47, high 43, low 31, explicit 27) and leaves
the active DSCP values as they are, so every `CipQosGetDscpPriority` result is
the same before and after the reset; the defaults become active with the next
`CipQosUpdateUsedSetQosValues`. -/
theorem C13_reset_restores_configured_only (s : QosState) :
    (CipQosResetAttributesToDefaultValues s).g_qos =
      { q_frames_enable := false
        dscp := { event := 59, general := 47, urgent := 55, scheduled := 47,
                  high := 43, low := 31, explicit := 27 } } ∧
    (CipQosResetAttributesToDefaultValues s).s_active_dscp = s.s_active_dscp ∧
    (∀ p : ConnectionObjectPriority,
      CipQosGetDscpPriority (CipQosResetAttributesToDefaultValues s) p
        = CipQosGetDscpPriority s p) ∧
    (CipQosUpdateUsedSetQosValues (CipQosResetAttributesToDefaultValues s)).s_active_dscp =
      { event := 59, general := 47, urgent := 55, scheduled := 47,
        high := 43, low := 31, explicit := 27 } :=
  ⟨rfl, rfl, fun p => by cases p <;> rfl, rfl⟩

/-- C15 (counterexample): attribute 1 of the table registered by `CipQoSInit`
exists and is bound to `g_qos.q_frames_enable`, but it carries the flags
`kNotSetOrGetable`: neither its get-single flag nor its bit in the class's
get-single permission array is set, so it is not gettable. -/
theorem C15_attribute_1_is_not_gettable :
    ∃ attr, GetCipAttribute CipQoSInit 1 = some attr ∧
      attr.data = some Loc.g_qos_q_frames_enable ∧
      attr.attribute_flags = kNotSetOrGetable ∧
      attr.attribute_flags &&& kGetableSingle = 0 ∧
      attr.attribute_flags &&& kGetableAll = 0 ∧
      gettableBit CipQoSInit 1 = 0 :=
  ⟨_, rfl, rfl, rfl, by decide, by decide, by decide⟩

/-- C15 (amended): in the table registered by `CipQoSInit` the enable flag of
the QoS object (attribute 1, bound to `g_qos.q_frames_enable`) exists and is
neither gettable nor settable: its flags are `kNotSetOrGetable`, its bits in
the get-single, get-all and set permission arrays are clear, and a set request
on it is answered AttributeNotSupported in every state. -/
theorem C15_attribute_1_exists_without_access :
    (∃ attr, GetCipAttribute CipQoSInit 1 = some attr ∧
      attr.data = some Loc.g_qos_q_frames_enable ∧
      attr.attribute_flags = kNotSetOrGetable ∧
      attr.attribute_flags &&& kGetableSingle = 0 ∧
      attr.attribute_flags &&& kGetableAll = 0 ∧
      attr.attribute_flags &&& kSetable = 0) ∧
    gettableBit CipQoSInit 1 = 0 ∧
    CipQoSInit.cip_class.get_all_bit_mask.getD (CalculateIndex 1) 0 &&& (1 <<< (1 % 8)) = 0 ∧
    settableBit CipQoSInit 1 = 0 ∧
    (∀ (service : Nat) (data : List Nat) (s : QosState),
      (SetAttributeSingleQoS CipQoSInit
          { service := service, request_path_attribute_number := 1, data := data }
          s).response.general_status = CipError.kCipErrorAttributeNotSupported ∧
      (SetAttributeSingleQoS CipQoSInit
          { service := service, request_path_attribute_number := 1, data := data }
          s).state = s) := by
  refine ⟨⟨_, rfl, rfl, rfl, by decide, by decide, by decide⟩, by decide, by decide,
    by decide, ?_⟩
  intro service data s
  have hb1 : settableBit CipQoSInit 1 = 0 := by decide
  have hb : settableBit CipQoSInit
      ({ service := service, request_path_attribute_number := 1, data := data } :
        CipMessageRouterRequest).request_path_attribute_number = 0 := hb1
  have hbody := setAttributeBody_not_settable CipQoSInit
    { service := service, request_path_attribute_number := 1, data := data } s hb
  constructor
  · show (setAttributeBody CipQoSInit _ s).1 = _
    rw [hbody]
  · show (setAttributeBody CipQoSInit _ s).2.1 = s
    rw [hbody]

/-- C16 (evaluation at the failing input): the payload 28 00 01 00 carries the
value 65576 = 65536 + 40. Addressed to attribute 8 of the registered instance
it is narrowed to the 16-bit `CipUint` value 40 before the range test, the
service reports Success and the byte written to `g_qos.dscp.explicit` is 40,
not the decoded value 65576: the value entered the accepted range by wrapping
modulo 2^16. A value that only wraps modulo 2^8 (296 = 256 + 40) is rejected. -/
theorem C16_payload_65576_wraps_into_range :
    encodeDint 65576 = [40, 0, 1, 0] ∧
    (GetDintFromMessage (encodeDint 65576)).1 = 65576 ∧
    65576 % 2 ^ 16 = 40 ∧
    (SetAttributeSingleQoS CipQoSInit
        { service := 0x10, request_path_attribute_number := 8, data := encodeDint 65576 }
        initialState).response.general_status = CipError.kCipErrorSuccess ∧
    readUsint
        (SetAttributeSingleQoS CipQoSInit
          { service := 0x10, request_path_attribute_number := 8, data := encodeDint 65576 }
          initialState).state (Loc.g_qos_dscp .explicit) = 40 ∧
    readUsint
        (SetAttributeSingleQoS CipQoSInit
          { service := 0x10, request_path_attribute_number := 8, data := encodeDint 65576 }
          initialState).state (Loc.g_qos_dscp .explicit)
      ≠ (GetDintFromMessage (encodeDint 65576)).1 ∧
    (SetAttributeSingleQoS CipQoSInit
        { service := 0x10, request_path_attribute_number := 8, data := encodeDint 296 }
        initialState).response.general_status = CipError.kCipErrorInvalidAttributeValue := by
  refine ⟨by decide, by decide, by decide, by decide, by decide, by decide, by decide⟩

/-! ## Sequences of operations -/

/-- On the registered instance a set request either leaves the globals as they
are or stores a value of 1..62 into a member of `g_qos.dscp` bound to the
addressed attribute; the first case is the one of every status but Success. -/
theorem set_registered_effect (req : CipMessageRouterRequest) (s : QosState) :
    ((SetAttributeSingleQoS CipQoSInit req s).response.general_status
        ≠ CipError.kCipErrorSuccess ∧
      (SetAttributeSingleQoS CipQoSInit req s).state = s) ∨
    ((SetAttributeSingleQoS CipQoSInit req s).response.general_status
        = CipError.kCipErrorSuccess ∧
      ∃ f x, boundField req.request_path_attribute_number = some f ∧
        1 ≤ x ∧ x ≤ 62 ∧ x = receivedValue req ∧
        (SetAttributeSingleQoS CipQoSInit req s).state
          = writeUsint s (Loc.g_qos_dscp f) x) := by
  show ((setAttributeBody CipQoSInit req s).1 ≠ _ ∧ (setAttributeBody CipQoSInit req s).2.1 = s) ∨
    ((setAttributeBody CipQoSInit req s).1 = _ ∧
      ∃ f x, _ ∧ _ ∧ _ ∧ _ ∧ (setAttributeBody CipQoSInit req s).2.1 = _)
  by_cases h : 4 ≤ req.request_path_attribute_number ∧ req.request_path_attribute_number ≤ 8
  · obtain ⟨f, hf, hbody⟩ := setAttributeBody_registered_settable req s h.1 h.2
    rw [hbody]
    by_cases hr : 1 ≤ (GetDintFromMessage req.data).1 % 2 ^ CipUintBits ∧
        (GetDintFromMessage req.data).1 % 2 ^ CipUintBits ≤ 62
    · rw [if_pos hr]
      exact Or.inr ⟨rfl, f, _, hf, hr.1, hr.2, rfl, rfl⟩
    · rw [if_neg hr]
      exact Or.inl ⟨fun hc => CipError.noConfusion hc, rfl⟩
  · rw [(setAttributeBody_registered_other req s h).2]
    exact Or.inl ⟨fun hc => CipError.noConfusion hc, rfl⟩

theorem dscp_get_set (d : CipQosDscpValues) (f g : DscpField) (v : Nat) :
    (d.set f v).get g = if g = f then v else d.get g := by
  cases f <;> cases g <;> rfl

theorem readUsint_writeUsint_other (s : QosState) (f : DscpField) (x : Nat) (l : Loc)
    (h : l ≠ Loc.g_qos_dscp f) :
    readUsint (writeUsint s (Loc.g_qos_dscp f) x) l = readUsint s l := by
  cases l with
  | g_qos_q_frames_enable => rfl
  | s_active_dscp g => rfl
  | g_qos_dscp g =>
    have hne : g ≠ f := fun hc => h (by rw [hc])
    show ((s.g_qos.dscp.set f (x % 2 ^ 8)).get g) = s.g_qos.dscp.get g
    rw [dscp_get_set, if_neg hne]

theorem applyOp_nv_log (s : QosState) (op : QosOp) : (applyOp s op).nv_log = s.nv_log := by
  cases op with
  | update => rfl
  | reset => rfl
  | set req =>
    rcases set_registered_effect req s with ⟨_, h⟩ | ⟨_, f, x, _, _, _, _, h⟩
    · show (SetAttributeSingleQoS CipQoSInit req s).state.nv_log = _
      rw [h]
    · show (SetAttributeSingleQoS CipQoSInit req s).state.nv_log = _
      rw [h, writeUsint_nv_log]

theorem applyOp_active_of_ne_update (s : QosState) (op : QosOp) (h : op ≠ QosOp.update) :
    (applyOp s op).s_active_dscp = s.s_active_dscp := by
  cases op with
  | update => exact absurd rfl h
  | reset => rfl
  | set req =>
    rcases set_registered_effect req s with ⟨_, hs⟩ | ⟨_, f, x, _, _, _, _, hs⟩
    · show (SetAttributeSingleQoS CipQoSInit req s).state.s_active_dscp = _
      rw [hs]
    · show (SetAttributeSingleQoS CipQoSInit req s).state.s_active_dscp = _
      rw [hs, writeUsint_g_qos_dscp_active]

theorem runOps_append (a b : List QosOp) (s : QosState) :
    runOps (a ++ b) s = runOps b (runOps a s) := by
  unfold runOps
  rw [List.foldl_append]

theorem runOps_cons (op : QosOp) (ops : List QosOp) (s : QosState) :
    runOps (op :: ops) s = runOps ops (applyOp s op) := rfl

theorem runOps_active_of_no_update (ops : List QosOp) (s : QosState)
    (h : QosOp.update ∉ ops) : (runOps ops s).s_active_dscp = s.s_active_dscp := by
  induction ops generalizing s with
  | nil => rfl
  | cons op rest ih =>
    rw [runOps_cons, ih (applyOp s op) (fun hc => h (List.mem_cons_of_mem _ hc))]
    exact applyOp_active_of_ne_update s op (fun hc => h (by rw [hc]; exact List.mem_cons_self _ _))

theorem runOps_nv_log (ops : List QosOp) (s : QosState) :
    (runOps ops s).nv_log = s.nv_log := by
  induction ops generalizing s with
  | nil => rfl
  | cons op rest ih => rw [runOps_cons, ih, applyOp_nv_log]

theorem dscpInRange_defaults : dscpInRange s_active_dscp_init := by
  intro f
  cases f <;> decide

theorem applyOp_range (s : QosState) (op : QosOp)
    (hc : dscpInRange s.g_qos.dscp) (ha : dscpInRange s.s_active_dscp) :
    dscpInRange (applyOp s op).g_qos.dscp ∧ dscpInRange (applyOp s op).s_active_dscp := by
  cases op with
  | update => exact ⟨hc, hc⟩
  | reset => exact ⟨dscpInRange_defaults, ha⟩
  | set req =>
    rcases set_registered_effect req s with ⟨_, hs⟩ | ⟨_, f, x, _, hx1, hx62, _, hs⟩
    · show dscpInRange (SetAttributeSingleQoS CipQoSInit req s).state.g_qos.dscp ∧
        dscpInRange (SetAttributeSingleQoS CipQoSInit req s).state.s_active_dscp
      rw [hs]
      exact ⟨hc, ha⟩
    · show dscpInRange (SetAttributeSingleQoS CipQoSInit req s).state.g_qos.dscp ∧
        dscpInRange (SetAttributeSingleQoS CipQoSInit req s).state.s_active_dscp
      rw [hs]
      refine ⟨?_, ha⟩
      intro g
      show 1 ≤ (s.g_qos.dscp.set f (x % 2 ^ 8)).get g ∧ (s.g_qos.dscp.set f (x % 2 ^ 8)).get g ≤ 62
      rw [dscp_get_set]
      by_cases hg : g = f
      · rw [if_pos hg]
        omega
      · rw [if_neg hg]
        exact hc g

theorem runOps_range (ops : List QosOp) (s : QosState)
    (hc : dscpInRange s.g_qos.dscp) (ha : dscpInRange s.s_active_dscp) :
    dscpInRange (runOps ops s).g_qos.dscp ∧ dscpInRange (runOps ops s).s_active_dscp := by
  induction ops generalizing s with
  | nil => exact ⟨hc, ha⟩
  | cons op rest ih =>
    rw [runOps_cons]
    exact ih (applyOp s op) (applyOp_range s op hc ha).1 (applyOp_range s op hc ha).2

/-- C14: active-generation invariant. After every finite sequence of set
requests, activations and resets run from the initial state, the active DSCP
record equals, as a whole, the configured DSCP record of one single earlier
point of the run: the initial defaults when the sequence holds no activation,
and otherwise the configured record as it stood when the most recent
activation ran. -/
theorem C14_active_is_one_configured_generation (ops : List QosOp) :
    (QosOp.update ∉ ops →
      (runOps ops initialState).s_active_dscp = g_qos_init.dscp ∧
      (runOps ops initialState).s_active_dscp = s_active_dscp_init) ∧
    (∀ pre post : List QosOp, ops = pre ++ QosOp.update :: post → QosOp.update ∉ post →
      (runOps ops initialState).s_active_dscp = (runOps pre initialState).g_qos.dscp) ∧
    (∃ k, k ≤ ops.length ∧
      (runOps ops initialState).s_active_dscp = (runOps (ops.take k) initialState).g_qos.dscp ∧
      ∀ f : DscpField,
        (runOps ops initialState).s_active_dscp.get f
          = (runOps (ops.take k) initialState).g_qos.dscp.get f) := by
  have hnone : QosOp.update ∉ ops →
      (runOps ops initialState).s_active_dscp = g_qos_init.dscp := by
    intro h
    rw [runOps_active_of_no_update ops initialState h]
    rfl
  have hlast : ∀ pre post : List QosOp, ops = pre ++ QosOp.update :: post →
      QosOp.update ∉ post →
      (runOps ops initialState).s_active_dscp = (runOps pre initialState).g_qos.dscp := by
    intro pre post hops hpost
    rw [hops, runOps_append, runOps_cons, runOps_active_of_no_update post _ hpost]
    rfl
  refine ⟨fun h => ⟨hnone h, by rw [hnone h]; rfl⟩, hlast, ?_⟩
  by_cases hmem : QosOp.update ∈ ops.reverse
  · obtain ⟨a, b, hab, hb⟩ := List.eq_append_cons_of_mem hmem
    have hops : ops = b.reverse ++ QosOp.update :: a.reverse := by
      have hrev := congrArg List.reverse hab
      rw [List.reverse_reverse] at hrev
      rw [hrev]
      simp
    have hpost : QosOp.update ∉ a.reverse := by
      intro hc
      exact hb (List.mem_reverse.mp hc)
    have heq := hlast b.reverse a.reverse hops hpost
    refine ⟨b.reverse.length, ?_, ?_, ?_⟩
    · rw [hops, List.length_append]
      omega
    · have htake : ops.take b.reverse.length = b.reverse := by
        rw [hops, List.take_left]
      rw [htake]
      exact heq
    · intro f
      have htake : ops.take b.reverse.length = b.reverse := by
        rw [hops, List.take_left]
      rw [htake, heq]
  · have hno : QosOp.update ∉ ops := fun hc => hmem (List.mem_reverse.mpr hc)
    refine ⟨0, Nat.zero_le _, ?_, ?_⟩
    · rw [hnone hno]
      rfl
    · intro f
      rw [hnone hno]
      rfl

/-- C14 at a concrete run: set urgent to 40, activate, set urgent to 41, reset;
the active record is the configured record as it stood at the activation. -/
theorem C14_active_is_one_configured_generation_witness :
    ([QosOp.set { service := 0x10, request_path_attribute_number := 4,
                  data := encodeDint 40 },
       QosOp.update,
       QosOp.set { service := 0x10, request_path_attribute_number := 4,
                   data := encodeDint 41 },
       QosOp.reset]
      = [QosOp.set { service := 0x10, request_path_attribute_number := 4,
                     data := encodeDint 40 }]
        ++ QosOp.update ::
          [QosOp.set { service := 0x10, request_path_attribute_number := 4,
                       data := encodeDint 41 },
           QosOp.reset]) ∧
    QosOp.update ∉
      [QosOp.set { service := 0x10, request_path_attribute_number := 4,
                   data := encodeDint 41 },
       QosOp.reset] ∧
    (runOps
        [QosOp.set { service := 0x10, request_path_attribute_number := 4,
                     data := encodeDint 40 },
         QosOp.update,
         QosOp.set { service := 0x10, request_path_attribute_number := 4,
                     data := encodeDint 41 },
         QosOp.reset] initialState).s_active_dscp
      = (runOps
          [QosOp.set { service := 0x10, request_path_attribute_number := 4,
                       data := encodeDint 40 }] initialState).g_qos.dscp :=
  ⟨rfl, by decide,
   (C14_active_is_one_configured_generation
      [QosOp.set { service := 0x10, request_path_attribute_number := 4,
                   data := encodeDint 40 },
       QosOp.update,
       QosOp.set { service := 0x10, request_path_attribute_number := 4,
                   data := encodeDint 41 },
       QosOp.reset]).2.1
      [QosOp.set { service := 0x10, request_path_attribute_number := 4,
                   data := encodeDint 40 }]
      [QosOp.set { service := 0x10, request_path_attribute_number := 4,
                   data := encodeDint 41 },
       QosOp.reset] rfl (by decide)⟩

/-- C17: a set changes at most the addressed attribute. On the registered
instance, for every state and request: if the set ends with a status other
than Success the globals are unchanged; if it ends with Success the addressed
attribute is one of 4..8 and every byte other than the storage bound to it
reads as before. In both cases q_frames_enable, event and general keep their
values, and so do the active values. -/
theorem C17_set_changes_only_addressed_storage (req : CipMessageRouterRequest)
    (s : QosState) :
    ((SetAttributeSingleQoS CipQoSInit req s).response.general_status
        ≠ CipError.kCipErrorSuccess →
      (SetAttributeSingleQoS CipQoSInit req s).state = s) ∧
    ((SetAttributeSingleQoS CipQoSInit req s).response.general_status
        = CipError.kCipErrorSuccess →
      ∃ f attr, boundField req.request_path_attribute_number = some f ∧
        GetCipAttribute CipQoSInit req.request_path_attribute_number = some attr ∧
        attr.data = some (Loc.g_qos_dscp f) ∧
        ∀ l : Loc, l ≠ Loc.g_qos_dscp f →
          readUsint (SetAttributeSingleQoS CipQoSInit req s).state l = readUsint s l) ∧
    (SetAttributeSingleQoS CipQoSInit req s).state.g_qos.q_frames_enable
      = s.g_qos.q_frames_enable ∧
    (SetAttributeSingleQoS CipQoSInit req s).state.g_qos.dscp.event = s.g_qos.dscp.event ∧
    (SetAttributeSingleQoS CipQoSInit req s).state.g_qos.dscp.general = s.g_qos.dscp.general ∧
    (SetAttributeSingleQoS CipQoSInit req s).state.s_active_dscp = s.s_active_dscp := by
  rcases set_registered_effect req s with ⟨hst, hs⟩ | ⟨hst, f, x, hf, _, _, _, hs⟩
  · refine ⟨fun _ => hs, fun h => absurd h hst, ?_, ?_, ?_, ?_⟩ <;> rw [hs]
  · have h48 : 4 ≤ req.request_path_attribute_number ∧
        req.request_path_attribute_number ≤ 8 := by
      by_contra hc
      have hnone : boundField req.request_path_attribute_number = none := by
        unfold boundField
        split <;> first | rfl | omega
      rw [hnone] at hf
      exact Option.noConfusion hf
    obtain ⟨f2, hf2, hg, _⟩ :=
      getCipAttribute_settable req.request_path_attribute_number h48.1 h48.2
    have hff : f2 = f := by
      rw [hf] at hf2
      exact (Option.some.inj hf2).symm
    subst hff
    refine ⟨fun h => absurd hst h, fun _ => ⟨f2, _, hf, hg, rfl, ?_⟩, ?_, ?_, ?_, ?_⟩
    · intro l hl
      rw [hs]
      exact readUsint_writeUsint_other s f2 x l hl
    · rw [hs]
      rfl
    · rw [hs]
      have hne : Loc.g_qos_dscp DscpField.event ≠ Loc.g_qos_dscp f2 := by
        intro hc
        have hev : f2 = DscpField.event := (Loc.g_qos_dscp.inj hc).symm
        rw [hev] at hf
        have hb := h48
        generalize req.request_path_attribute_number = n at hf hb
        obtain ⟨h4, h8⟩ := hb
        interval_cases n <;> exact DscpField.noConfusion (Option.some.inj hf)
      exact readUsint_writeUsint_other s f2 x (Loc.g_qos_dscp .event) hne
    · rw [hs]
      have hne : Loc.g_qos_dscp DscpField.general ≠ Loc.g_qos_dscp f2 := by
        intro hc
        have hev : f2 = DscpField.general := (Loc.g_qos_dscp.inj hc).symm
        rw [hev] at hf
        have hb := h48
        generalize req.request_path_attribute_number = n at hf hb
        obtain ⟨h4, h8⟩ := hb
        interval_cases n <;> exact DscpField.noConfusion (Option.some.inj hf)
      exact readUsint_writeUsint_other s f2 x (Loc.g_qos_dscp .general) hne
    · rw [hs]
      rfl

/-- C17 at concrete requests from the initial state: attribute 4 set to 40
(Success, every other byte as before) and attribute 4 sent 63 (rejected,
globals unchanged). -/
theorem C17_set_changes_only_addressed_storage_witness :
    ((SetAttributeSingleQoS CipQoSInit
          { service := 0x10, request_path_attribute_number := 4, data := encodeDint 63 }
          initialState).response.general_status ≠ CipError.kCipErrorSuccess ∧
      (SetAttributeSingleQoS CipQoSInit
          { service := 0x10, request_path_attribute_number := 4, data := encodeDint 63 }
          initialState).state = initialState) ∧
    ((SetAttributeSingleQoS CipQoSInit
          { service := 0x10, request_path_attribute_number := 4, data := encodeDint 40 }
          initialState).response.general_status = CipError.kCipErrorSuccess ∧
      ∃ f attr, boundField 4 = some f ∧
        GetCipAttribute CipQoSInit 4 = some attr ∧
        attr.data = some (Loc.g_qos_dscp f) ∧
        ∀ l : Loc, l ≠ Loc.g_qos_dscp f →
          readUsint
            (SetAttributeSingleQoS CipQoSInit
              { service := 0x10, request_path_attribute_number := 4, data := encodeDint 40 }
              initialState).state l = readUsint initialState l) :=
  ⟨⟨by decide,
    (C17_set_changes_only_addressed_storage
      { service := 0x10, request_path_attribute_number := 4, data := encodeDint 63 }
      initialState).1 (by decide)⟩,
   ⟨by decide,
    (C17_set_changes_only_addressed_storage
      { service := 0x10, request_path_attribute_number := 4, data := encodeDint 40 }
      initialState).2.1 (by decide)⟩⟩

/-- C18: DSCP range invariant. After every finite sequence of set requests,
activations and resets run from the initial state (no persistence load), all
seven configured and all seven active DSCP values lie in 1..62, and so does
the value `CipQosGetDscpPriority` returns for any selector. -/
theorem C18_dscp_values_stay_in_range (ops : List QosOp) :
    dscpInRange (runOps ops initialState).g_qos.dscp ∧
    dscpInRange (runOps ops initialState).s_active_dscp ∧
    (∀ p : ConnectionObjectPriority,
      1 ≤ CipQosGetDscpPriority (runOps ops initialState) p ∧
      CipQosGetDscpPriority (runOps ops initialState) p ≤ 62) := by
  have h := runOps_range ops initialState dscpInRange_defaults dscpInRange_defaults
  refine ⟨h.1, h.2, ?_⟩
  intro p
  cases p with
  | kConnectionObjectPriorityLow => exact h.2 .low
  | kConnectionObjectPriorityHigh => exact h.2 .high
  | kConnectionObjectPriorityScheduled => exact h.2 .scheduled
  | kConnectionObjectPriorityUrgent => exact h.2 .urgent
  | kConnectionObjectPriorityExplicit => exact h.2 .explicit
  | unrecognized raw => exact h.2 .explicit

/-- C19: the three compiled-in default tables agree. The DSCP part of the
initializer of `g_qos`, the initializer of `s_active_dscp` and the table the
reset writes are the same record; from every state, and so from every state
reachable from the initial one, a reset followed by an activation yields the
initial configured and active values (from a reachable state: the initial
state itself); the reset is the identity on the initial state and running it
twice is the same as running it once. -/
theorem C19_default_tables_agree :
    g_qos_init.dscp = s_active_dscp_init ∧
    (∀ s : QosState, (CipQosResetAttributesToDefaultValues s).g_qos = g_qos_init) ∧
    (∀ s : QosState,
      (CipQosUpdateUsedSetQosValues (CipQosResetAttributesToDefaultValues s)).g_qos
        = g_qos_init ∧
      (CipQosUpdateUsedSetQosValues (CipQosResetAttributesToDefaultValues s)).s_active_dscp
        = s_active_dscp_init) ∧
    (∀ ops : List QosOp,
      CipQosUpdateUsedSetQosValues
          (CipQosResetAttributesToDefaultValues (runOps ops initialState))
        = initialState) ∧
    CipQosResetAttributesToDefaultValues initialState = initialState ∧
    (∀ s : QosState,
      CipQosResetAttributesToDefaultValues (CipQosResetAttributesToDefaultValues s)
        = CipQosResetAttributesToDefaultValues s) := by
  refine ⟨rfl, fun _ => rfl, fun _ => ⟨rfl, rfl⟩, ?_, rfl, fun _ => rfl⟩
  intro ops
  have hlog := runOps_nv_log ops initialState
  show ({ g_qos := g_qos_init, s_active_dscp := g_qos_init.dscp,
          nv_log := (runOps ops initialState).nv_log } : QosState) = initialState
  rw [hlog]
  rfl

end OpENer

